import Mathlib

/-!
Verification development for the MCP video/audio job gateway
(`app/jobs.py`, `app/main.py`, `app/credential_utils.py`,
`app/mcp_protocol.py`, `app/mcp_transport.py`, `app/websocket_manager.py`).

Python text values are embedded as `List Char`; Python `dict` job metadata
as association lists; Python `float` arithmetic as exact rationals passed
through `fl`, a round-to-nearest-even model of IEEE-754 binary64.
-/

namespace App

/-! ## Python string primitives

`isSpace` models the whitespace class used by `str.split`, `str.strip`
and the regex class `\s` on the ASCII range. -/

def isSpace (c : Char) : Bool :=
  c = ' ' ∨ c = '\t' ∨ c = '\n' ∨ c = '\r' ∨ c = '\x0b' ∨ c = '\x0c'

/-- `text.lstrip()` on the whitespace class. -/
def lstrip (l : List Char) : List Char := l.dropWhile isSpace

/-- `text.rstrip()` on the whitespace class. -/
def rstrip (l : List Char) : List Char := (l.reverse.dropWhile isSpace).reverse

/-- `text.strip()` on the whitespace class. -/
def strip (l : List Char) : List Char := rstrip (lstrip l)

/-- Word-counting automaton: `countWordsAux p l` counts the maximal
non-whitespace runs of `l`, where `p` records whether the previous
character (the one just before `l`) was whitespace or the start of the
string.  `countWordsAux true l` is `len(l.split())` in Python. -/
def countWordsAux : Bool → List Char → Nat
  | _, [] => 0
  | prevSpace, c :: cs =>
    (if ¬ isSpace c ∧ prevSpace then 1 else 0) + countWordsAux (isSpace c) cs

/-- `len(text.split())`: the number of whitespace-separated words. -/
def wordCount (l : List Char) : Nat := countWordsAux true l

/-- The automaton state after consuming `l` starting from state `p`:
whether the last character consumed was whitespace. -/
def endState (p : Bool) : List Char → Bool
  | [] => p
  | c :: cs => endState (isSpace c) cs

/-- `re.sub(r'\s+', ' ', ·)` as a character-wise automaton: `prevSpace`
records whether the previous character belonged to a whitespace run, so
each maximal run contributes exactly one space. -/
def squeezeWsAux : Bool → List Char → List Char
  | _, [] => []
  | prevSpace, c :: cs =>
    if isSpace c then
      if prevSpace then squeezeWsAux true cs
      else ' ' :: squeezeWsAux true cs
    else c :: squeezeWsAux false cs

/-- `re.sub(r'\s+', ' ', ·)`: squeeze every maximal whitespace run to a
single space. -/
def squeezeWs (l : List Char) : List Char := squeezeWsAux false l

/-- `'.'`, `'!'`, `'?'` — the sentence-terminal characters used both by
the sentence-splitting regex and by the `endswith` check. -/
def isSentEnd (c : Char) : Bool := c = '.' ∨ c = '!' ∨ c = '?'

/-- `text.endswith(('.', '!', '?'))`. -/
def endsWithPunct (l : List Char) : Bool :=
  match l.getLast? with
  | none => false
  | some c => isSentEnd c

/-- Whether the most recently consumed character (head of the reversed
accumulator) is a sentence-terminal character — the `(?<=[.!?])`
lookbehind. -/
def prevIsSentEnd (acc : List Char) : Bool :=
  match acc.head? with
  | some p => isSentEnd p
  | none => false

/-- `re.split(r'(?<=[.!?])\s+', text)`: the accumulator `acc` holds the
current piece reversed; a whitespace character directly preceded by a
sentence-terminal character starts a delimiter; `skipping` records that
the scanner is inside a delimiter's whitespace run, which is consumed
greedily (while skipping, `acc` is empty, so the lookbehind cannot
retrigger). -/
def sentenceSplitAux : Bool → List Char → List Char → List (List Char)
  | _, acc, [] => [acc.reverse]
  | skipping, acc, c :: rest =>
    if skipping ∧ isSpace c then
      sentenceSplitAux true acc rest
    else if isSpace c ∧ prevIsSentEnd acc then
      acc.reverse :: sentenceSplitAux true [] rest
    else
      sentenceSplitAux false (c :: acc) rest

def sentenceSplit (l : List Char) : List (List Char) := sentenceSplitAux false [] l

/-- `' '.join(pieces)`. -/
def joinSpace : List (List Char) → List Char
  | [] => []
  | [p] => p
  | p :: ps => p ++ ' ' :: joinSpace ps

/-! ## IEEE-754 binary64 model

Python floats are doubles.  For the magnitudes appearing in this program
(word counts and durations, far below 2^53 and far above the subnormal
range) a double is exactly a rational with 53 significant bits, and every
arithmetic operation rounds its exact result to nearest, ties to even.
`fl` performs that rounding on a nonnegative rational. -/

/-- Round a rational to the nearest integer, ties to even. -/
def roundHalfEven (q : ℚ) : ℤ :=
  if q - ⌊q⌋ < 1/2 then ⌊q⌋
  else if 1/2 < q - ⌊q⌋ then ⌊q⌋ + 1
  else if ⌊q⌋ % 2 = 0 then ⌊q⌋ else ⌊q⌋ + 1

/-- Round a nonnegative rational to the nearest IEEE binary64 value
(53-bit significand, round to nearest, ties to even; no
overflow/underflow in the ranges this program uses). -/
def fl (q : ℚ) : ℚ :=
  if q ≤ 0 then 0
  else
    let e : ℤ := Int.log 2 q
    let s : ℤ := 52 - e
    (roundHalfEven (q * 2 ^ s) : ℚ) * 2 ^ (-s)

/-- Python `int(·)` on a nonnegative float: truncation toward zero. -/
def floatToInt (q : ℚ) : ℤ := ⌊q⌋

theorem roundHalfEven_le (q : ℚ) : (roundHalfEven q : ℚ) ≤ q + 1/2 := by
  unfold roundHalfEven
  have hf : (⌊q⌋ : ℚ) ≤ q := Int.floor_le q
  split
  · linarith
  · split
    · push_cast
      linarith
    · split <;> push_cast <;> linarith

theorem le_roundHalfEven (q : ℚ) : q - 1/2 ≤ (roundHalfEven q : ℚ) := by
  unfold roundHalfEven
  have hf : q < (⌊q⌋ : ℚ) + 1 := Int.lt_floor_add_one q
  split
  · next h => linarith
  · split
    · push_cast
      linarith
    · split <;> push_cast <;> linarith

/-- `fl` maps positive rationals to positive rationals: the scaled value
`q * 2 ^ s` lies in `[2^52, 2^53)`, so its rounding is positive. -/
theorem fl_pos {q : ℚ} (hq : 0 < q) : 0 < fl q := by
  unfold fl
  rw [if_neg (by linarith)]
  have hlow : (2 : ℚ) ^ (Int.log 2 q) ≤ q := Int.zpow_log_le_self (by norm_num) hq
  have hs : (0 : ℚ) < 2 ^ (52 - Int.log 2 q) := zpow_pos (by norm_num) _
  have hscaled : (2 : ℚ) ^ (52 : ℤ) ≤ q * 2 ^ (52 - Int.log 2 q) := by
    have h2 : (2 : ℚ) ^ (Int.log 2 q) * 2 ^ (52 - Int.log 2 q) = 2 ^ (52 : ℤ) := by
      rw [← zpow_add₀ (by norm_num : (2:ℚ) ≠ 0)]
      ring_nf
    calc (2 : ℚ) ^ (52 : ℤ) = 2 ^ (Int.log 2 q) * 2 ^ (52 - Int.log 2 q) := h2.symm
    _ ≤ q * 2 ^ (52 - Int.log 2 q) := by
        exact mul_le_mul_of_nonneg_right hlow (le_of_lt hs)
  have hround : (2 : ℚ) ^ (52 : ℤ) - 1/2 ≤ (roundHalfEven (q * 2 ^ (52 - Int.log 2 q)) : ℚ) := by
    have := le_roundHalfEven (q * 2 ^ (52 - Int.log 2 q))
    linarith
  have hpos : (0 : ℚ) < (roundHalfEven (q * 2 ^ (52 - Int.log 2 q)) : ℚ) := by
    have h52 : (1 : ℚ) ≤ (2 : ℚ) ^ (52 : ℤ) := one_le_zpow₀ (by norm_num) (by norm_num)
    linarith
  exact mul_pos hpos (zpow_pos (by norm_num) _)

theorem fl_nonneg (q : ℚ) : 0 ≤ fl q := by
  rcases le_or_lt q 0 with h | h
  · unfold fl
    rw [if_pos h]
  · exact le_of_lt (fl_pos h)

/-- Half an ulp at magnitude 1: the relative rounding error bound of a
binary64 operation. -/
def flEps : ℚ := (2 : ℚ) ^ (-(53 : ℤ))

theorem flEps_val : flEps = 1 / 9007199254740992 := by
  unfold flEps
  norm_num

theorem fl_le {q : ℚ} (hq : 0 < q) : fl q ≤ q * (1 + flEps) := by
  unfold fl
  rw [if_neg (not_le.mpr hq)]
  have h2e : (2 : ℚ) ^ (Int.log 2 q) ≤ q := Int.zpow_log_le_self (by norm_num) hq
  have hsnn : (0 : ℚ) ≤ 2 ^ (-(52 - Int.log 2 q)) := le_of_lt (zpow_pos (by norm_num) _)
  have hround := roundHalfEven_le (q * 2 ^ (52 - Int.log 2 q))
  have hmul := mul_le_mul_of_nonneg_right hround hsnn
  have hcancel : q * 2 ^ (52 - Int.log 2 q) * 2 ^ (-(52 - Int.log 2 q)) = q := by
    rw [mul_assoc, ← zpow_add₀ (by norm_num : (2:ℚ) ≠ 0)]
    simp
  have hhalf : (1 / 2 : ℚ) * 2 ^ (-(52 - Int.log 2 q)) ≤ q * flEps := by
    have hh : (1 / 2 : ℚ) * 2 ^ (-(52 - Int.log 2 q)) =
        2 ^ (Int.log 2 q) * (2 : ℚ) ^ (-(53 : ℤ)) := by
      rw [← zpow_add₀ (by norm_num : (2:ℚ) ≠ 0)]
      have : (1 / 2 : ℚ) = 2 ^ (-(1 : ℤ)) := by norm_num
      rw [this, ← zpow_add₀ (by norm_num : (2:ℚ) ≠ 0)]
      ring_nf
    rw [hh]
    unfold flEps
    exact mul_le_mul_of_nonneg_right h2e (le_of_lt (zpow_pos (by norm_num) _))
  calc (roundHalfEven (q * 2 ^ (52 - Int.log 2 q)) : ℚ) * 2 ^ (-(52 - Int.log 2 q))
      ≤ (q * 2 ^ (52 - Int.log 2 q) + 1 / 2) * 2 ^ (-(52 - Int.log 2 q)) := hmul
    _ = q * 2 ^ (52 - Int.log 2 q) * 2 ^ (-(52 - Int.log 2 q)) +
        (1 / 2) * 2 ^ (-(52 - Int.log 2 q)) := by ring
    _ = q + (1 / 2) * 2 ^ (-(52 - Int.log 2 q)) := by rw [hcancel]
    _ ≤ q + q * flEps := by linarith
    _ = q * (1 + flEps) := by ring

theorem le_fl {q : ℚ} (hq : 0 < q) : q * (1 - flEps) ≤ fl q := by
  unfold fl
  rw [if_neg (not_le.mpr hq)]
  have h2e : (2 : ℚ) ^ (Int.log 2 q) ≤ q := Int.zpow_log_le_self (by norm_num) hq
  have hsnn : (0 : ℚ) ≤ 2 ^ (-(52 - Int.log 2 q)) := le_of_lt (zpow_pos (by norm_num) _)
  have hround := le_roundHalfEven (q * 2 ^ (52 - Int.log 2 q))
  have hmul := mul_le_mul_of_nonneg_right hround hsnn
  have hcancel : q * 2 ^ (52 - Int.log 2 q) * 2 ^ (-(52 - Int.log 2 q)) = q := by
    rw [mul_assoc, ← zpow_add₀ (by norm_num : (2:ℚ) ≠ 0)]
    simp
  have hhalf : (1 / 2 : ℚ) * 2 ^ (-(52 - Int.log 2 q)) ≤ q * flEps := by
    have hh : (1 / 2 : ℚ) * 2 ^ (-(52 - Int.log 2 q)) =
        2 ^ (Int.log 2 q) * (2 : ℚ) ^ (-(53 : ℤ)) := by
      rw [← zpow_add₀ (by norm_num : (2:ℚ) ≠ 0)]
      have : (1 / 2 : ℚ) = 2 ^ (-(1 : ℤ)) := by norm_num
      rw [this, ← zpow_add₀ (by norm_num : (2:ℚ) ≠ 0)]
      ring_nf
    rw [hh]
    unfold flEps
    exact mul_le_mul_of_nonneg_right h2e (le_of_lt (zpow_pos (by norm_num) _))
  calc q * (1 - flEps) = q - q * flEps := by ring
    _ ≤ q - (1 / 2) * 2 ^ (-(52 - Int.log 2 q)) := by linarith
    _ = q * 2 ^ (52 - Int.log 2 q) * 2 ^ (-(52 - Int.log 2 q)) -
        (1 / 2) * 2 ^ (-(52 - Int.log 2 q)) := by rw [hcancel]
    _ = (q * 2 ^ (52 - Int.log 2 q) - 1 / 2) * 2 ^ (-(52 - Int.log 2 q)) := by ring
    _ ≤ (roundHalfEven (q * 2 ^ (52 - Int.log 2 q)) : ℚ) * 2 ^ (-(52 - Int.log 2 q)) := hmul

theorem fl_zero : fl 0 = 0 := by
  unfold fl
  rw [if_pos le_rfl]

/-! ## Script duration logic (`app/jobs.py`)

`estimate_script_duration` (lines 100–120), `truncate_script_to_duration`
(lines 122–156) and the violation-threshold enforcement shared by
`make_script_openai` (lines 267–282) and `make_script_gemini`
(lines 370–385), at the default speaking rate of 150 words per minute. -/

/-- `estimate_script_duration(text, 150)`: normalize whitespace
(`re.sub(r'\s+', ' ', text.strip())`), count words, and compute
`word_count / 150 * 60` in float arithmetic. -/
def estimate_script_duration (text : List Char) : ℚ :=
  fl (fl ((wordCount (squeezeWs (strip text)) : ℚ) / 150) * 60)

/-- `int((max_duration_seconds / 60) * 150)` — the word budget of
`truncate_script_to_duration`, in float arithmetic. -/
def maxWordsFor (d : ℤ) : ℤ := floatToInt (fl (fl ((d : ℚ) / 60) * 150))

/-- The sentence-accumulation loop of `truncate_script_to_duration`
(lines 137–146): keep sentences while the running word count stays within
`max_words`, stopping at the first sentence that would exceed it. -/
def truncLoop (maxW : ℤ) : List (List Char) → ℕ → List (List Char)
  | [], _ => []
  | s :: rest, wcnt =>
    if (wcnt + wordCount s : ℤ) > maxW then []
    else s :: truncLoop maxW rest (wcnt + wordCount s)

/-- `truncate_script_to_duration(text, max_duration_seconds, 150)`
(lines 122–156): split into sentences, keep a prefix within the word
budget, join with spaces, and append a period if the result is nonempty
and does not already end with terminal punctuation. -/
def truncate_script_to_duration (text : List Char) (d : ℤ) : List Char :=
  let kept := truncLoop (maxWordsFor d) (sentenceSplit (strip text)) 0
  let t := joinSpace kept
  if t ≠ [] ∧ endsWithPunct (rstrip t) = false then rstrip t ++ ['.'] else t

/-- `max(max_duration_seconds * 2, max_duration_seconds + 30)`
(line 272). -/
def violation_threshold (d : ℤ) : ℤ := max (d * 2) (d + 30)

/-- The duration-violation enforcement step of `make_script_openai`
(lines 274–282): truncate only when the estimated duration strictly
exceeds the violation threshold, otherwise return the sanitized script
unchanged.  `make_script_gemini` (lines 377–385) runs the identical
code. -/
def enforceDuration (script : List Char) (d : ℤ) : List Char :=
  if estimate_script_duration script > (violation_threshold d : ℚ)
  then truncate_script_to_duration script d
  else script

/-! ## Job metadata and credential scrubbing (`app/credential_utils.py`)

Job metadata is a Python dict with string keys; the values the program
stores there are ints and strings.  The dict is embedded as an
association list with unique keys: `metaSet` replaces or appends,
`metaDel` removes, `metaGet` looks up. -/

inductive MetaVal : Type
  | i (n : ℤ)
  | s (v : String)
deriving DecidableEq, Repr

abbrev Meta : Type := List (String × MetaVal)

def metaGet (m : Meta) (k : String) : Option MetaVal :=
  match m.find? (fun kv => kv.1 = k) with
  | some kv => some kv.2
  | none => none

def metaSet (m : Meta) (k : String) (v : MetaVal) : Meta :=
  if m.any (fun kv => kv.1 = k)
  then m.map (fun kv => if kv.1 = k then (k, v) else kv)
  else m ++ [(k, v)]

def metaDel (m : Meta) (k : String) : Meta :=
  m.filter (fun kv => ¬ kv.1 = k)

/-- The credential keys deleted by `clear_sensitive_data`
(`credential_utils.py` lines 173–179). -/
def sensitive_keys : List String :=
  ["gemini_api_key", "openai_api_key", "google_cloud_credentials",
   "elevenlabs_api_key", "credentials"]

/-- `clear_sensitive_data(job_meta)` (`credential_utils.py`
lines 165–185): copy the metadata and delete every sensitive key. -/
def clear_sensitive_data (m : Meta) : Meta :=
  sensitive_keys.foldl (fun acc k => metaDel acc k) m

/-! ## Python truthiness

`if parameters.durationSeconds:` and similar guards test Python
truthiness: `None`, `0` and `""` are falsy. -/

def pyTruthyInt : Option ℤ → Bool
  | none => false
  | some n => n ≠ 0

def pyTruthyStr : Option String → Bool
  | none => false
  | some s => s ≠ ""

/-! ## Video parameter validation (`app/credential_utils.py`, `app/main.py`)

`VideoGenerationParameters` (`mcp_models.py` lines 16–27) with its
pydantic defaults; `aspect_ratio` embeds the source field `aspectRatio`. -/

def SUPPORTED_VIDEO_MODELS : List String :=
  ["veo-3.0-generate-preview", "veo-2.0-generate-preview",
   "veo-1.0-generate-preview", "imagen-3.0-generate-001",
   "imagen-3.0-fast-generate-001"]

structure VideoGenerationParameters where
  aspect_ratio : Option String := some "16:9"
  durationSeconds : Option ℤ := some 8
  enhancePrompt : Option Bool := some true
  generateAudio : Option Bool := some true
  negativePrompt : Option String := none
  personGeneration : Option String := some "allow_all"
  resolution : Option String := none
  sampleCount : Option ℤ := some 1
  seed : Option ℤ := none
  storageUri : Option String := none
  model : Option String := some "veo-3.0-generate-preview"
deriving DecidableEq, Repr

def valid_ratios : List String := ["16:9", "9:16", "1:1", "4:3", "3:4"]

/-- `validate_video_parameters(parameters)` (`credential_utils.py`
lines 23–51).  Each guard is a Python truthiness test, so a field whose
value is `0` or `""` skips its range/membership check exactly as in the
source. -/
def validate_video_parameters : Option VideoGenerationParameters → Bool × Option String
  | none => (true, none)
  | some p =>
    if pyTruthyStr p.model ∧ (p.model.getD "") ∉ SUPPORTED_VIDEO_MODELS then
      (false, some ("Unsupported video model \x27" ++ p.model.getD "" ++
        "\x27. Supported models: " ++ String.intercalate ", " SUPPORTED_VIDEO_MODELS))
    else if pyTruthyInt p.durationSeconds ∧
        ((p.durationSeconds.getD 0) < 1 ∨ (p.durationSeconds.getD 0) > 60) then
      (false, some "Duration must be between 1 and 60 seconds")
    else if pyTruthyStr p.aspect_ratio ∧ (p.aspect_ratio.getD "") ∉ valid_ratios then
      (false, some ("Unsupported aspect ratio \x27" ++ p.aspect_ratio.getD "" ++
        "\x27. Supported ratios: " ++ String.intercalate ", " valid_ratios))
    else if pyTruthyInt p.sampleCount ∧
        ((p.sampleCount.getD 0) < 1 ∨ (p.sampleCount.getD 0) > 4) then
      (false, some "Sample count must be between 1 and 4")
    else (true, none)

/-- `MCPResponse` (`mcp_models.py` lines 69–79). -/
structure MCPResponse where
  job_id : String
  status : String
  download_url : Option String := none
  thumbnail_url : Option String := none
  progress : Option ℤ := none
  current_step : Option String := none
  total_steps : Option ℤ := none
  step_number : Option ℤ := none
  estimated_completion : Option String := none
  operation_name : Option String := none
deriving DecidableEq, Repr

/-- `MCPRequest` (`mcp_models.py` lines 37–48), restricted to the fields
`create_task` reads on the validation-and-enqueue path (the raw
image/video conditioning inputs and the credential payload are passed
through opaquely and do not influence validation). -/
structure MCPRequest where
  mode : String
  prompt : String
  parameters : Option VideoGenerationParameters := none
  generate_thumbnail : Option Bool := some false
  thumbnail_prompt : Option String := none
deriving DecidableEq, Repr

/-- The non-deterministic inputs of `create_task`:
`validate_credentials(creds_dict)` (`credential_utils.py` lines 110–162)
probes credential objects and a storage client, so its outcome is
environment-supplied. -/
structure CreateTaskEnv where
  validate_credentials : Bool × Option String
deriving DecidableEq, Repr

/-- `None` prints as `"None"` inside an f-string. -/
def fmtOptStr : Option String → String
  | none => "None"
  | some s => s

inductive CreateTaskResult : Type
  /-- `raise HTTPException(status_code, detail)` — rejected before any
  enqueue. -/
  | httpError (statusCode : ℤ) (detail : String)
  /-- The audio branch evaluates `req.provider`, which is not a declared
  field of `MCPRequest`, raising `AttributeError` before
  `q.enqueue_call` runs (no enqueue). -/
  | attributeError
  /-- `q.enqueue_call` ran for the given pipeline and the queued
  `MCPResponse` is returned. -/
  | queued (pipeline : String) (response : MCPResponse)
deriving DecidableEq, Repr

/-- `create_task(req)` (`main.py` lines 335–384): validate credentials,
then (video mode) validate parameters, then enqueue and answer
`status="queued"`. -/
def create_task (env : CreateTaskEnv) (job_id : String) (req : MCPRequest) :
    CreateTaskResult :=
  if env.validate_credentials.1 = false then
    .httpError 400 ("Invalid credentials: " ++ fmtOptStr env.validate_credentials.2)
  else if req.mode = "video" ∧ (validate_video_parameters req.parameters).1 = false then
    .httpError 400 ("Invalid video parameters: " ++
      fmtOptStr (validate_video_parameters req.parameters).2)
  else if req.mode = "video" then
    .queued "video"
      { job_id := job_id, status := "queued", progress := some 0,
        current_step := some "Job queued, waiting to start",
        total_steps := some 3, step_number := some 0 }
  else
    .attributeError

/-! ## MCP protocol state machine (`app/mcp_protocol.py`,
`app/mcp_transport.py`)

JSON-RPC ids are `Union[str, int, None]`.  Of all routed methods only
`initialize` reads `params`, so the request carries the raw initialize
parameter shape; a request with `params = none` covers both a missing
and an empty (falsy) params object. -/

abbrev RpcId := Option (String ⊕ ℤ)

/-- The values of the `McpProtocolVersion` enum (`mcp_protocol.py`
lines 19–23). -/
def mcpProtocolVersionValues : List String :=
  ["2024-11-05", "2025-03-26", "2025-06-18"]

/-- `self.supported_versions` (`mcp_protocol.py` lines 116–120). -/
def supported_versions : List String :=
  ["2024-11-05", "2025-03-26", "2025-06-18"]

/-- `ClientInfo` prior to pydantic validation: both fields are required
strings. -/
structure RawClientInfo where
  name : Option String := none
  version : Option String := none
deriving DecidableEq, Repr

/-- The raw `initialize` params before pydantic validation
(`InitializeRequest`, `mcp_protocol.py` lines 90–94):
`capabilities` is a required object whose own fields all default. -/
structure RawInitParams where
  protocolVersion : Option String := none
  capabilities : Option Unit := none
  clientInfo : Option RawClientInfo := none
deriving DecidableEq, Repr

structure JsonRpcRequest where
  id : RpcId := none
  method : String
  params : Option RawInitParams := none
deriving DecidableEq, Repr

structure JsonRpcErrorObj where
  code : ℤ
  message : String
deriving DecidableEq, Repr

/-- The result payloads produced by the routed protocol methods:
`ping` answers `{}` and `initialize` answers an `InitializeResponse`
whose only request-dependent field is the echoed protocol version
(capabilities and server info are fixed). -/
inductive RpcResultVal : Type
  | emptyObj
  | initResult (protocolVersion : String)
deriving DecidableEq, Repr

structure JsonRpcResponse where
  id : RpcId := none
  result : Option RpcResultVal := none
  error : Option JsonRpcErrorObj := none
deriving DecidableEq, Repr

namespace McpError

def PARSE_ERROR : ℤ := -32700
def INVALID_REQUEST : ℤ := -32600
def METHOD_NOT_FOUND : ℤ := -32601
def INVALID_PARAMS : ℤ := -32602
def INTERNAL_ERROR : ℤ := -32603
def INVALID_PROTOCOL_VERSION : ℤ := -32000
def UNSUPPORTED_CAPABILITY : ℤ := -32001
def TOOL_EXECUTION_ERROR : ℤ := -32002
def RESOURCE_NOT_FOUND : ℤ := -32003

end McpError

/-- `McpProtocolHandler` mutable state (`mcp_protocol.py`
lines 110–113). -/
structure McpState where
  initialized : Bool := false
  client_capabilities : Option Unit := none
  client_info : Option (String × String) := none
deriving DecidableEq, Repr

def create_error_response (request_id : RpcId) (error_code : ℤ) (message : String) :
    JsonRpcResponse :=
  { id := request_id, error := some { code := error_code, message := message } }

def create_success_response (request_id : RpcId) (result : RpcResultVal) :
    JsonRpcResponse :=
  { id := request_id, result := some result }

/-- The successfully validated fields of `InitializeRequest`. -/
structure InitializeRequest where
  protocolVersion : String
  clientName : String
  clientVersion : String
deriving DecidableEq, Repr

/-- `InitializeRequest(**request.params)`: pydantic validation.  The
version string must be a member of the `McpProtocolVersion` enum;
`capabilities` and a fully populated `clientInfo` must be present.  A
failure raises, which `handle_initialize` converts to an
invalid-params error. -/
def parseInitializeRequest (p : RawInitParams) : Except String InitializeRequest :=
  match p.protocolVersion with
  | none => .error "protocolVersion missing"
  | some v =>
    if v ∉ mcpProtocolVersionValues then
      .error ("protocolVersion input should be a member of McpProtocolVersion")
    else
      match p.capabilities with
      | none => .error "capabilities missing"
      | some _ =>
        match p.clientInfo with
        | none => .error "clientInfo missing"
        | some ci =>
          match ci.name, ci.version with
          | some n, some ver => .ok { protocolVersion := v, clientName := n, clientVersion := ver }
          | _, _ => .error "clientInfo fields missing"

/-- `handle_initialize(request)` (`mcp_protocol.py` lines 149–180),
returning the updated handler state and the response. -/
def handle_initialize (st : McpState) (request : JsonRpcRequest) :
    McpState × JsonRpcResponse :=
  match request.params with
  | none =>
    (st, create_error_response request.id McpError.INVALID_PARAMS
      "Initialize requires parameters")
  | some params =>
    match parseInitializeRequest params with
    | .error e =>
      (st, create_error_response request.id McpError.INVALID_PARAMS
        ("Invalid initialize parameters: " ++ e))
    | .ok init_request =>
      if init_request.protocolVersion ∉ supported_versions then
        (st, create_error_response request.id McpError.INVALID_PROTOCOL_VERSION
          ("Unsupported protocol version: " ++ init_request.protocolVersion ++
           ". Supported: " ++ String.intercalate ", " supported_versions))
      else
        ({ initialized := true, client_capabilities := some (),
           client_info := some (init_request.clientName, init_request.clientVersion) },
         create_success_response request.id (.initResult init_request.protocolVersion))

/-- `route_request(request)` (`mcp_protocol.py` lines 195–213): core
methods first, then the initialization gate; `none` means the request
falls through to the endpoint handlers. -/
def route_request (st : McpState) (request : JsonRpcRequest) :
    McpState × Option JsonRpcResponse :=
  if request.method = "initialize" then
    (( handle_initialize st request).1, some ( handle_initialize st request).2)
  else if request.method = "notifications/initialized" then
    (st, none)
  else if request.method = "ping" then
    (st, some (create_success_response request.id .emptyObj))
  else if st.initialized = false ∧
      request.method ∉ ["initialize", "notifications/initialized"] then
    (st, some (create_error_response request.id McpError.INVALID_REQUEST
      "Protocol not initialized. Call \x27initialize\x27 first."))
  else
    (st, none)

/-- The methods dispatched to `mcp_endpoints` by the transport
(`mcp_transport.py` lines 74–85). -/
def endpointMethods : List String :=
  ["tools/list", "tools/call", "resources/list", "resources/read",
   "prompts/list", "prompts/get"]

/-- What the transport does with a routed request: either a protocol
response is returned directly, or the request is handed to an
`mcp_endpoints` handler (the only place tools run and jobs are
enqueued). -/
inductive ProcOutcome : Type
  | response (r : JsonRpcResponse)
  | endpointDispatch (method : String)
deriving DecidableEq, Repr

/-- `McpTransport._process_mcp_message` (`mcp_transport.py`
lines 61–92): protocol handler first; on fall-through, dispatch by
method name or answer method-not-found. -/
def process_mcp_message (st : McpState) (request : JsonRpcRequest) :
    McpState × ProcOutcome :=
  match route_request st request with
  | (st2, some r) => (st2, .response r)
  | (st2, none) =>
    if request.method ∈ endpointMethods then
      (st2, .endpointDispatch request.method)
    else
      (st2, .response (create_error_response request.id McpError.METHOD_NOT_FOUND
        ("Method not found: " ++ request.method)))

/-! ## Job results and vendor operation status -/

/-- A Python exception, identified by its message. -/
abbrev PyErr := String

/-- The dict result shape stored by the pipelines: audio jobs store the
URL record (`jobs.py` lines 1254–1260), deferred video jobs store
`{status: "submitted", operation_name, message}` (`jobs.py`
lines 843–847). -/
structure DictResult where
  audio_url : Option String := none
  display_audio_url : Option String := none
  download_audio_url : Option String := none
  thumbnail_url : Option String := none
  audio_duration_seconds : Option ℚ := none
  status : Option String := none
  operation_name : Option String := none
  message : Option String := none
deriving DecidableEq, Repr

inductive JobResult : Type
  | str (s : String)
  | dict (d : DictResult)
deriving DecidableEq, Repr

/-- One entry of the `videos` array of a finished Veo operation. -/
structure OpVideo where
  gcsUri : Option String := none
deriving DecidableEq, Repr

/-- One entry of the legacy `predictions` array. -/
structure OpPrediction where
  videoUrl : Option String := none
deriving DecidableEq, Repr

structure OpError where
  code : Option ℤ := none
  message : Option String := none
deriving DecidableEq, Repr

structure OpResponseData where
  videos : List OpVideo := []
  predictions : List OpPrediction := []
deriving DecidableEq, Repr

/-- The JSON body returned by `fetchPredictOperation`:
`{done?, error?, response?}`. -/
structure OpStatus where
  done : Bool := false
  error : Option OpError := none
  response : Option OpResponseData := none
deriving DecidableEq, Repr

/-- A job handle as the status endpoints see it: the RQ status string,
the persisted metadata and (when finished) the stored result. -/
structure JobView where
  queueStatus : String
  meta : Meta := []
  result : Option JobResult := none
deriving DecidableEq, Repr

/-- External collaborators of the status endpoints:
`fetch_operation_status` performs a network call
(`jobs.py` lines 859–906) and `make_blob_public_safe` touches GCS
(`main.py` lines 53–70); `bucket` is `GCS_BUCKET`. -/
structure StatusEnv where
  fetch_operation_status : String → Except PyErr OpStatus
  make_blob_public_safe : String → Except PyErr String
  bucket : String

/-- `resolve_gcs_url(url)` (`main.py` lines 72–103). -/
def resolve_gcs_url (env : StatusEnv) (url : String) : String :=
  if url = "" then url
  else if url.startsWith "gs://" then
    let blob_path := url.replace ("gs://" ++ env.bucket ++ "/") ""
    match env.make_blob_public_safe blob_path with
    | .ok u => u
    | .error _ => "https://storage.googleapis.com/" ++ env.bucket ++ "/" ++ blob_path
  else if url.startsWith ("https://storage.googleapis.com/" ++ env.bucket ++ "/") then
    let blob_path := url.replace ("https://storage.googleapis.com/" ++ env.bucket ++ "/") ""
    match env.make_blob_public_safe blob_path with
    | .ok u => u
    | .error _ => url
  else url

/-- `job.meta.get(key, default)` for the integer-valued progress
fields written by the pipelines. -/
def metaGetI (m : Meta) (k : String) (dflt : ℤ) : ℤ :=
  match metaGet m k with
  | some (.i n) => n
  | _ => dflt

/-- `job.meta.get(key, default)` for the string-valued fields. -/
def metaGetS (m : Meta) (k : String) (dflt : String) : String :=
  match metaGet m k with
  | some (.s v) => v
  | _ => dflt

/-- `job.meta.get(key, None)` for an optional string field. -/
def metaGetS? (m : Meta) (k : String) : Option String :=
  match metaGet m k with
  | some (.s v) => some v
  | _ => none

/-- The status override and status-specific defaults shared by
`check` (`main.py` lines 404–422) and
`send_current_status` (`websocket_manager.py` lines 71–89):
reported status, progress, current_step, step_number. -/
def statusDefaults (queueStatus : String) (custom_status : Option String)
    (progress : ℤ) (current_step : String) (step_number : ℤ) :
    String × ℤ × String × ℤ :=
  let job_status := if custom_status = some "running" ∧ queueStatus = "finished"
    then "started" else queueStatus
  if job_status = "queued" then
    (job_status, 0, "Job queued, waiting to start", 0)
  else if job_status = "started" ∧ progress = 0 then
    (job_status, 5, "Job started, initializing...", 1)
  else if job_status = "failed" then
    (job_status, 0, "Job failed", step_number)
  else
    (job_status, progress, current_step, step_number)

/-- The url extraction from a finished operation's response used by
`check` (`main.py` lines 443–452 and 465–474): the `videos[0].gcsUri`
path first, then the legacy `predictions[0].videoUrl` path. -/
def extractOperationUrl (env : StatusEnv) (op : OpStatus) : Option String :=
  if op.done ∧ op.response.isSome then
    let rd := op.response.getD {}
    match rd.videos with
    | v0 :: _ =>
      match v0.gcsUri with
      | some uri => some (resolve_gcs_url env uri)
      | none =>
        match rd.predictions with
        | p0 :: _ =>
          match p0.videoUrl with
          | some u => some (resolve_gcs_url env u)
          | none => none
        | [] => none
    | [] =>
      match rd.predictions with
      | p0 :: _ =>
        match p0.videoUrl with
        | some u => some (resolve_gcs_url env u)
        | none => none
      | [] => none
  else none

/-- `check(job_id)` (`main.py` lines 386–491): the polling status
endpoint.  `fetched` is `q.fetch_job(job_id)`. -/
def check (env : StatusEnv) (job_id : String) (fetched : Option JobView) :
    MCPResponse :=
  match fetched with
  | none =>
    { job_id := job_id, status := "not_found", current_step := some "Job not found" }
  | some job =>
    let progress0 := metaGetI job.meta "progress" 0
    let current_step0 := metaGetS job.meta "current_step" "Processing..."
    let total_steps := metaGetI job.meta "total_steps" 1
    let step_number0 := metaGetI job.meta "step_number" 0
    let custom_status := metaGetS? job.meta "status"
    let sd := statusDefaults job.queueStatus custom_status progress0 current_step0 step_number0
    let is_finished := job.queueStatus = "finished"
    let result : Option JobResult := if is_finished then job.result else none
    let operation_name0 := metaGetS? job.meta "operation_name"
    let urls : Option String × Option String × Option String :=
      match result with
      | some (.dict d) =>
        if pyTruthyStr d.audio_url then
          (some (resolve_gcs_url env (d.audio_url.getD "")),
           if pyTruthyStr d.thumbnail_url
             then some (resolve_gcs_url env (d.thumbnail_url.getD "")) else none,
           operation_name0)
        else if d.status = some "submitted" ∧ pyTruthyStr d.operation_name then
          let opName := d.operation_name.getD ""
          match env.fetch_operation_status opName with
          | .ok op => (extractOperationUrl env op, none, some opName)
          | .error _ => (none, none, some opName)
        else (none, none, operation_name0)
      | some (.str s) =>
        if s.startsWith "http" then
          (some (resolve_gcs_url env s), none, operation_name0)
        else if s.startsWith "projects/" then
          match env.fetch_operation_status s with
          | .ok op => (extractOperationUrl env op, none, some s)
          | .error _ => (none, none, some s)
        else (some (resolve_gcs_url env s), none, operation_name0)
      | none => (none, none, operation_name0)
    { job_id := job_id, status := sd.1, download_url := urls.1,
      thumbnail_url := urls.2.1, progress := some sd.2.1,
      current_step := some sd.2.2.1, total_steps := some total_steps,
      step_number := some sd.2.2.2, operation_name := urls.2.2 }

/-! ## WebSocket initial-status replay (`app/websocket_manager.py`) -/

/-- The JSON message built by `send_current_status`
(`websocket_manager.py` lines 123–137). -/
structure WsStatusMessage where
  job_id : String
  status : String
  download_url : Option String := none
  display_audio_url : Option String := none
  download_audio_url : Option String := none
  thumbnail_url : Option String := none
  audio_duration_seconds : Option ℚ := none
  progress : ℤ
  current_step : String
  total_steps : ℤ
  step_number : ℤ
  operation_name : Option String := none
deriving DecidableEq, Repr

inductive WsSent : Type
  /-- `{"job_id", "status": "not_found", "error": "Job not found"}`
  (lines 55–61). -/
  | notFound (job_id : String)
  | statusMessage (m : WsStatusMessage)
deriving DecidableEq, Repr

/-- The local `resolve_gcs_url` defined inside `send_current_status`
(`websocket_manager.py` lines 36–51): pure URL rewriting, no GCS
access. -/
def wsResolveGcsUrl (bucket : String) (url : String) : String :=
  if url = "" then url
  else if url.startsWith "gs://" then
    "https://storage.googleapis.com/" ++ bucket ++ "/" ++
      (url.replace ("gs://" ++ bucket ++ "/") "")
  else if url.startsWith ("https://storage.googleapis.com/" ++ bucket ++ "/") then
    url
  else url

/-- `send_current_status(websocket, job_id)` (`websocket_manager.py`
lines 30–146), as the message it sends.  `fetched` is
`q.fetch_job(job_id)`. -/
def send_current_status (bucket : String) (job_id : String)
    (fetched : Option JobView) : WsSent :=
  match fetched with
  | none => .notFound job_id
  | some job =>
    let progress0 := metaGetI job.meta "progress" 0
    let current_step0 := metaGetS job.meta "current_step" "Processing..."
    let total_steps := metaGetI job.meta "total_steps" 1
    let step_number0 := metaGetI job.meta "step_number" 0
    let custom_status := metaGetS? job.meta "status"
    let operation_name0 := metaGetS? job.meta "operation_name"
    let sd := statusDefaults job.queueStatus custom_status progress0 current_step0 step_number0
    let is_finished := job.queueStatus = "finished"
    let result : Option JobResult := if is_finished then job.result else none
    let fields : Option String × Option String × Option String × Option String ×
        Option ℚ × Option String :=
      match result with
      | some (.dict d) =>
        if pyTruthyStr d.audio_url then
          let url := some (wsResolveGcsUrl bucket (d.audio_url.getD ""))
          (url,
           if pyTruthyStr d.display_audio_url
             then some (wsResolveGcsUrl bucket (d.display_audio_url.getD "")) else url,
           if pyTruthyStr d.download_audio_url
             then some (wsResolveGcsUrl bucket (d.download_audio_url.getD "")) else url,
           if pyTruthyStr d.thumbnail_url
             then some (wsResolveGcsUrl bucket (d.thumbnail_url.getD "")) else none,
           d.audio_duration_seconds,
           operation_name0)
        else if d.status = some "submitted" ∧ pyTruthyStr d.operation_name then
          (none, none, none, none, none, some (d.operation_name.getD ""))
        else (none, none, none, none, none, operation_name0)
      | some (.str s) =>
        if s.startsWith "http" then
          (some (wsResolveGcsUrl bucket s), none, none, none, none, operation_name0)
        else if s.startsWith "projects/" then
          (none, none, none, none, none, some s)
        else
          (some (wsResolveGcsUrl bucket s), none, none, none, none, operation_name0)
      | none => (none, none, none, none, none, operation_name0)
    .statusMessage
      { job_id := job_id, status := sd.1,
        download_url := fields.1,
        display_audio_url := fields.2.1,
        download_audio_url := fields.2.2.1,
        thumbnail_url := fields.2.2.2.1,
        audio_duration_seconds := fields.2.2.2.2.1,
        progress := sd.2.1, current_step := sd.2.2.1,
        total_steps := total_steps, step_number := sd.2.2.2,
        operation_name := fields.2.2.2.2.2 }

/-! ## Pipeline executors (`app/jobs.py`)

The executors are embedded as functions of an environment that supplies
every external-call outcome (auth, vendor HTTP calls, storage, TTS).
Each returns the final persisted job metadata, the sequence of
notifications published through the WebSocket manager, and either the
job's return value or the exception re-raised to RQ. -/

/-- The notifications published by `manager.notify_progress`,
`manager.notify_completion` and `manager.notify_error`
(`websocket_manager.py` lines 172–349). -/
inductive Notification : Type
  | progress (job_id : String) (progress : ℤ) (current_step : String)
      (step_number : ℤ) (total_steps : ℤ)
  | completion (job_id : String) (download_url : String)
  | error (job_id : String) (message : String)
deriving DecidableEq, Repr

structure GenOutcome (α : Type) where
  meta : Meta
  log : List Notification
  result : Except PyErr α

def metaSetMany (m : Meta) (kvs : List (String × MetaVal)) : Meta :=
  kvs.foldl (fun acc kv => metaSet acc kv.1 kv.2) m

/-- `gen_video`'s return value: a direct public URL on immediate
completion (`jobs.py` line 825), or the submitted-operation record
(lines 843–847). -/
inductive VideoResult : Type
  | directUrl (url : String)
  | submitted (operation_name : String) (message : String)
deriving DecidableEq, Repr

/-- External-call outcomes consumed by `gen_video`:
credential creation/refresh plus storage-client creation (`initAuth`,
lines 663–669), the `predictLongRunning` POST returning
`operation.get("name")` (`submit`, lines 741–749), the single immediate
`fetch_operation_status` poll (line 769), blob publication (lines
788/791 — the duplicated call is deterministic here), and the metadata
blob upload (line 816). -/
structure GenVideoEnv where
  bucket : String
  initAuth : Except PyErr Unit
  submit : Except PyErr (Option String)
  immediate_fetch : Except PyErr OpStatus
  make_blob_public_safe : String → Except PyErr String
  uploadMetadata : Except PyErr Unit

/-- The `video_url` produced by the immediate-check block (`jobs.py`
lines 756–797).  Everything inside the `try` of line 766 — including
the deliberate `raise ValueError(error_msg)` of line 777 on a vendor
error, and any failure of the fetch or of `make_blob_public_safe` — is
caught by the blanket `except Exception` of line 796, which only
prints; so each of those cases merely leaves `video_url = None`. -/
def immediateVideoUrl (env : GenVideoEnv) : Option String :=
  match env.immediate_fetch with
  | .error _ => none
  | .ok st =>
    if st.done ∧ st.error.isSome then
      none
    else if st.done ∧ st.response.isSome then
      match (st.response.getD {}).videos with
      | v0 :: _ =>
        match v0.gcsUri with
        | some uri =>
          match env.make_blob_public_safe
              (uri.replace ("gs://" ++ env.bucket ++ "/") "") with
          | .ok u => some u
          | .error _ => none
        | none => none
      | [] => none
    else none

/-- Metadata after step 1 of `gen_video` (`jobs.py` lines 643–647). -/
def vMeta1 (m0 : Meta) : Meta :=
  metaSetMany m0
    [("progress", .i 10), ("current_step", .s "Initializing video generation"),
     ("step_number", .i 1), ("total_steps", .i 3)]

/-- Metadata after step 2 (lines 675–678). -/
def vMeta2 (m0 : Meta) : Meta :=
  metaSetMany (vMeta1 m0)
    [("progress", .i 50), ("current_step", .s "Submitting video generation request"),
     ("step_number", .i 2)]

/-- Metadata after the immediate-check update (lines 760–762). -/
def vMeta3 (m0 : Meta) : Meta :=
  metaSetMany (vMeta2 m0)
    [("progress", .i 55), ("current_step", .s "Checking initial operation status")]

/-- Metadata at immediate completion (lines 819–820). -/
def vMeta4 (m0 : Meta) : Meta :=
  metaSetMany (vMeta3 m0)
    [("progress", .i 100), ("current_step", .s "Complete - Video ready!")]

/-- Metadata of the submitted/running branch (lines 828–831). -/
def vMeta5 (m0 : Meta) (operation_name : String) : Meta :=
  metaSetMany (vMeta3 m0)
    [("progress", .i 60),
     ("current_step", .s "Video generation in progress - check status manually"),
     ("operation_name", .s operation_name), ("status", .s "running")]

def vLog1 (job_id : String) : List Notification :=
  [.progress job_id 10 "Initializing video generation" 1 3]

def vLog2 (job_id : String) : List Notification :=
  vLog1 job_id ++ [.progress job_id 50 "Submitting video generation request" 2 3]

def vLog3 (job_id : String) : List Notification :=
  vLog2 job_id ++ [.progress job_id 55 "Checking initial operation status" 3 3]

/-- `gen_video(video_request, credentials)` (`jobs.py` lines 629–856).
The request payload assembly (lines 684–727) only shapes the vendor
call, whose outcome the environment supplies, so it does not appear
here.  Every exit applies the outer `except` (lines 849–856) or the
explicit scrubbing of the success branches.

The immediate status check (lines 765–797) runs inside a `try` whose
blanket `except Exception` only prints; in particular the deliberate
`raise ValueError(error_msg)` of line 777 (vendor reported
`done` + `error`) is caught by that same `except` at line 796, so the
branch merely leaves `video_url = None` and the function falls through
to the submitted/running branch. -/
def gen_video (env : GenVideoEnv) (job_id : String) (meta0 : Meta) :
    GenOutcome VideoResult :=
  match env.initAuth with
  | .error e =>
    { meta := clear_sensitive_data (vMeta1 meta0),
      log := vLog1 job_id ++ [.error job_id e], result := .error e }
  | .ok _ =>
  match env.submit with
  | .error e =>
    { meta := clear_sensitive_data (vMeta2 meta0),
      log := vLog2 job_id ++ [.error job_id e], result := .error e }
  | .ok opName? =>
  if pyTruthyStr opName? = false then
    { meta := clear_sensitive_data (vMeta2 meta0),
      log := vLog2 job_id ++ [.error job_id "No operation name returned from API"],
      result := .error "No operation name returned from API" }
  else
  match immediateVideoUrl env with
  | some u =>
    match env.uploadMetadata with
    | .error e =>
      { meta := clear_sensitive_data (vMeta3 meta0),
        log := vLog3 job_id ++ [.error job_id e], result := .error e }
    | .ok _ =>
      { meta := clear_sensitive_data (vMeta4 meta0),
        log := vLog3 job_id ++ [.completion job_id u],
        result := .ok (.directUrl u) }
  | none =>
    { meta := clear_sensitive_data (vMeta5 meta0 (opName?.getD "")),
      log := vLog3 job_id ++ [.progress job_id 60
        "Video generation in progress - use /mcp/\x7bjob_id\x7d or /operation/\x7boperation_name\x7d to check status"
        3 3],
      result := .ok (.submitted (opName?.getD "") "Video generation started successfully") }

/-- `credentials` dict fields read by `gen_audio`. -/
structure CredsDict where
  gemini_api_key : Option String := none
  openai_api_key : Option String := none
  elevenlabs_api_key : Option String := none
  gcs_bucket : Option String := none
deriving DecidableEq, Repr

/-- External-call outcomes consumed by `gen_audio`.  The script oracles
return the output of `sanitize_script_text` on the provider's raw
completion (sanitization is a total string rewriting, `jobs.py`
lines 158–198); the duration-budget enforcement that follows it is
embedded exactly (`enforceDuration`). -/
structure GenAudioEnv where
  openai_key_env : Option String
  gemini_key_env : Option String
  storageInit : Except PyErr Unit
  openaiSanitizedScript : Except PyErr (List Char)
  geminiSanitizedScript : Except PyErr (List Char)
  voicesFetch : Except PyErr (List String)
  ttsGenerate : String → Except PyErr Unit
  convert : Except PyErr Unit
  thumbnailGen : Except PyErr (Option String)
  uploadMp3 : Except PyErr Unit
  publicMp3 : Except PyErr String
  uploadConverted : Except PyErr Unit
  publicConverted : Except PyErr String
  audioDuration : Except PyErr ℚ

/-- `a or b` on optional strings (Python truthiness). -/
def orFalsy (a b : Option String) : Option String :=
  if pyTruthyStr a then a else b

/-- `make_script(prompt, gemini_api_key, provider, max_duration_seconds)`
(`jobs.py` lines 391–410), with the provider calls supplied by the
environment and the duration enforcement of `make_script_openai` /
`make_script_gemini` applied to their sanitized output. -/
def make_script (env : GenAudioEnv) (gemini_api_key : Option String)
    (provider : String) (max_duration_seconds : ℤ) : Except PyErr (List Char) :=
  if provider = "openai" then
    if pyTruthyStr env.openai_key_env = false then
      .error "Internal OpenAI API key not configured on server"
    else
      match env.openaiSanitizedScript with
      | .error e => .error e
      | .ok s => .ok (enforceDuration s max_duration_seconds)
  else if provider = "gemini" then
    if pyTruthyStr gemini_api_key then
      match env.geminiSanitizedScript with
      | .error e => .error e
      | .ok s => .ok (enforceDuration s max_duration_seconds)
    else
      .error "Gemini API key is required when using Gemini provider"
  else
    .error ("Unsupported provider: " ++ provider ++ ". Use \x27openai\x27 or \x27gemini\x27.")

def preferred_voices : List String :=
  ["pNInz6obpgDQGcFmaJgB", "21m00Tcm4TlvDq8ikWAM", "AZnzlk1XvdvUeBnXmlld"]

/-- Voice acquisition (`jobs.py` lines 976–1007): preferred voice, else
first available, else the hardcoded Adam id; a fetch failure falls back
instead of failing the job. -/
def selectVoice : Except PyErr (List String) → String
  | .error _ => "pNInz6obpgDQGcFmaJgB"
  | .ok voices =>
    match voices.find? (fun v => v ∈ preferred_voices) with
    | some v => v
    | none =>
      match voices with
      | v :: _ => v
      | [] => "pNInz6obpgDQGcFmaJgB"

def models_to_try : List String :=
  ["eleven_turbo_v2_5", "eleven_turbo_v2", "eleven_multilingual_v2",
   "eleven_multilingual_v1", "eleven_monolingual_v1"]

/-- The TTS model fallback loop (`jobs.py` lines 1049–1071). -/
def ttsTryModels (gen : String → Except PyErr Unit) :
    List String → Option PyErr → Except PyErr Unit
  | [], last =>
    .error ("Unable to generate audio with any available ElevenLabs model. Last error: " ++
      fmtOptStr last)
  | mname :: rest, last =>
    match gen mname with
    | .ok _ => .ok ()
    | .error e =>
      let _ := last
      ttsTryModels gen rest (some e)

/-- `total_steps = 5 if generate_thumbnail else 4` (`jobs.py`
line 915). -/
def aTotalSteps (gt : Bool) : ℤ := if gt then 5 else 4

/-- Metadata after step 1 of `gen_audio` (lines 948–951). -/
def aMeta1 (gt : Bool) (m0 : Meta) : Meta :=
  metaSetMany m0
    [("progress", .i 10), ("current_step", .s "Generating script with AI"),
     ("step_number", .i 1), ("total_steps", .i (aTotalSteps gt))]

/-- Metadata after step 2 (lines 963–965). -/
def aMeta2 (gt : Bool) (m0 : Meta) : Meta :=
  metaSetMany (aMeta1 gt m0)
    [("progress", .i 30), ("current_step", .s "Initializing text-to-speech engine"),
     ("step_number", .i 2)]

/-- Metadata after step 3 (lines 1011–1013). -/
def aMeta3 (gt : Bool) (m0 : Meta) : Meta :=
  metaSetMany (aMeta2 gt m0)
    [("progress", .i 60), ("current_step", .s "Converting text to speech"),
     ("step_number", .i 3)]

/-- Metadata after the optional thumbnail step (lines 1094–1096). -/
def aMeta4 (gt : Bool) (m0 : Meta) : Meta :=
  if gt then
    metaSetMany (aMeta3 gt m0)
      [("progress", .i 70), ("current_step", .s "Generating podcast thumbnail"),
       ("step_number", .i 4)]
  else aMeta3 gt m0

/-- Metadata at the upload step (lines 1192–1194). -/
def aMeta5 (gt : Bool) (m0 : Meta) : Meta :=
  metaSetMany (aMeta4 gt m0)
    [("progress", .i 90), ("current_step", .s "Uploading audio files to cloud storage"),
     ("step_number", .i (aTotalSteps gt))]

/-- Metadata at completion (lines 1233–1234). -/
def aMeta6 (gt : Bool) (m0 : Meta) : Meta :=
  metaSetMany (aMeta5 gt m0) [("progress", .i 100), ("current_step", .s "Complete")]

def aLog1 (gt : Bool) (job_id : String) : List Notification :=
  [.progress job_id 10 "Generating script with AI" 1 (aTotalSteps gt)]

def aLog2 (gt : Bool) (job_id : String) : List Notification :=
  aLog1 gt job_id ++
    [.progress job_id 30 "Initializing text-to-speech engine" 2 (aTotalSteps gt)]

def aLog3 (gt : Bool) (job_id : String) : List Notification :=
  aLog2 gt job_id ++ [.progress job_id 60 "Converting text to speech" 3 (aTotalSteps gt)]

def aLog4 (gt : Bool) (job_id : String) : List Notification :=
  if gt then
    aLog3 gt job_id ++
      [.progress job_id 70 "Generating podcast thumbnail" 4 (aTotalSteps gt)]
  else aLog3 gt job_id

def aLog5 (gt : Bool) (job_id : String) : List Notification :=
  aLog4 gt job_id ++
    [.progress job_id 90 "Uploading audio files to cloud storage" (aTotalSteps gt)
      (aTotalSteps gt)]

/-- The thumbnail URL produced by the optional thumbnail block
(`jobs.py` lines 1090–1187): any exception is caught locally and the
job continues without a thumbnail. -/
def aThumbUrl (env : GenAudioEnv) (gt : Bool) : Option String :=
  if gt then
    match env.thumbnailGen with
    | .ok u? => u?
    | .error _ => none
  else none

/-- Whether `convert_audio_format` succeeded (`jobs.py` lines
1076–1088): a conversion failure degrades to serving the MP3. -/
def aConvertedOk (env : GenAudioEnv) (audio_format : String) : Bool :=
  if audio_format ≠ "mp3" then
    match env.convert with
    | .ok _ => true
    | .error _ => false
  else false

/-- The download-URL computation (`jobs.py` lines 1214–1229): upload
the converted blob and publish it when a conversion result exists,
otherwise reuse the MP3 display URL. -/
def aDownloadUrl (env : GenAudioEnv) (audio_format display_audio_url : String) :
    Except PyErr String :=
  if aConvertedOk env audio_format = true ∧ audio_format ≠ "mp3" then
    match env.uploadConverted with
    | .error e => .error e
    | .ok _ => env.publicConverted
  else .ok display_audio_url

/-- `gen_audio(prompt, credentials, generate_thumbnail, thumbnail_prompt,
provider, audio_format, max_duration_seconds)` (`jobs.py`
lines 908–1281).  Voice lookup, transcoding, thumbnail generation and
duration measurement degrade gracefully; all other failures reach the
outer `except` (lines 1265–1281), which scrubs metadata, publishes an
error notification and re-raises. -/
def gen_audio (env : GenAudioEnv) (job_id : String) (credentials : Option CredsDict)
    (generate_thumbnail : Bool) (provider : String) (audio_format : String)
    (max_duration_seconds : ℤ) (meta0 : Meta) : GenOutcome DictResult :=
  match env.storageInit with
  | .error e =>
    { meta := clear_sensitive_data meta0, log := [.error job_id e], result := .error e }
  | .ok _ =>
  match make_script env
      (orFalsy (credentials.getD {}).gemini_api_key env.gemini_key_env)
      provider max_duration_seconds with
  | .error e =>
    { meta := clear_sensitive_data (aMeta1 generate_thumbnail meta0),
      log := aLog1 generate_thumbnail job_id ++ [.error job_id e], result := .error e }
  | .ok _script =>
  match ttsTryModels env.ttsGenerate models_to_try none with
  | .error e =>
    { meta := clear_sensitive_data (aMeta3 generate_thumbnail meta0),
      log := aLog3 generate_thumbnail job_id ++ [.error job_id e], result := .error e }
  | .ok _ =>
  match env.uploadMp3 with
  | .error e =>
    { meta := clear_sensitive_data (aMeta5 generate_thumbnail meta0),
      log := aLog5 generate_thumbnail job_id ++ [.error job_id e], result := .error e }
  | .ok _ =>
  match env.publicMp3 with
  | .error e =>
    { meta := clear_sensitive_data (aMeta5 generate_thumbnail meta0),
      log := aLog5 generate_thumbnail job_id ++ [.error job_id e], result := .error e }
  | .ok display_audio_url =>
  match aDownloadUrl env audio_format display_audio_url with
  | .error e =>
    { meta := clear_sensitive_data (aMeta5 generate_thumbnail meta0),
      log := aLog5 generate_thumbnail job_id ++ [.error job_id e], result := .error e }
  | .ok download_audio_url =>
  { meta := clear_sensitive_data (aMeta6 generate_thumbnail meta0),
    log := aLog5 generate_thumbnail job_id ++ [.completion job_id display_audio_url],
    result := .ok
      { audio_url := some display_audio_url,
        display_audio_url := some display_audio_url,
        download_audio_url := some download_audio_url,
        thumbnail_url := aThumbUrl env generate_thumbnail,
        audio_duration_seconds :=
          match env.audioDuration with
          | .ok q => some q
          | .error _ => none } }

/-! ## Status-resolution lemmas -/

theorem statusDefaults_fst (qs : String) (cs : Option String) (p : ℤ) (c : String) (s : ℤ) :
    (statusDefaults qs cs p c s).1 =
      if cs = some "running" ∧ qs = "finished" then "started" else qs := by
  simp only [statusDefaults]
  split_ifs <;> simp_all

theorem statusDefaults_failed (cs : Option String) (p : ℤ) (c : String) (s : ℤ) :
    statusDefaults "failed" cs p c s = ("failed", 0, "Job failed", s) := by
  simp only [statusDefaults]
  split_ifs <;> simp_all

/-- C8: a status query for a job id that is not in the store answers
`status = "not_found"` with no download URL (and `check`, being a total
function, raises nothing). -/
theorem unknown_job_reports_not_found (env : StatusEnv) (job_id : String) :
    (check env job_id none).status = "not_found" ∧
    (check env job_id none).download_url = none ∧
    (check env job_id none).current_step = some "Job not found" :=
  ⟨rfl, rfl, rfl⟩

/-- C7: a job whose metadata carries the custom marker
`status = 'running'` while the queue reports it `finished` (the
deferred video-submission case) is reported to clients as `started`,
not `finished`. -/
theorem running_marker_overrides_finished (env : StatusEnv) (job_id : String)
    (job : JobView)
    (h1 : metaGet job.meta "status" = some (.s "running"))
    (h2 : job.queueStatus = "finished") :
    (check env job_id (some job)).status = "started" := by
  have hcs : metaGetS? job.meta "status" = some "running" := by
    simp [metaGetS?, h1]
  simp only [check]
  rw [statusDefaults_fst]
  simp [hcs, h2]

/-- Witness for C7 at a concrete deferred video job. -/
def jobC7 : JobView :=
  { queueStatus := "finished",
    meta := [("progress", .i 60), ("current_step", .s "Video generation in progress - check status manually"),
             ("step_number", .i 2), ("total_steps", .i 3),
             ("operation_name", .s "projects/p/operations/op-7"), ("status", .s "running")],
    result := some (.dict { status := some "submitted",
                            operation_name := some "projects/p/operations/op-7",
                            message := some "Video generation started successfully" }) }

def envStatusW : StatusEnv :=
  { fetch_operation_status := fun _ => .error "network unavailable",
    make_blob_public_safe := fun _ => .error "network unavailable",
    bucket := "test-bucket" }

theorem running_marker_overrides_finished_witness :
    (check envStatusW "job-7" (some jobC7)).status = "started" :=
  running_marker_overrides_finished envStatusW "job-7" jobC7 (by decide) (by decide)

/-- C9: a job whose queue status is `failed` is reported — both by the
polling endpoint and by the WebSocket initial-status replay — with
`status = "failed"`, `progress = 0` and `current_step = "Job failed"`. -/
theorem failed_job_reporting (env : StatusEnv) (bucket : String) (job_id : String)
    (job : JobView) (h : job.queueStatus = "failed") :
    ((check env job_id (some job)).status = "failed" ∧
     (check env job_id (some job)).progress = some 0 ∧
     (check env job_id (some job)).current_step = some "Job failed") ∧
    ∃ m : WsStatusMessage,
      send_current_status bucket job_id (some job) = .statusMessage m ∧
      m.status = "failed" ∧ m.progress = 0 ∧ m.current_step = "Job failed" := by
  obtain ⟨qs, meta, res⟩ := job
  simp only at h
  subst h
  constructor
  · simp only [check]
    rw [statusDefaults_failed]
    exact ⟨rfl, rfl, rfl⟩
  · simp only [send_current_status]
    rw [statusDefaults_failed]
    exact ⟨_, rfl, rfl, rfl, rfl⟩

/-- Witness for C9 at a concrete failed job. -/
def jobC9 : JobView :=
  { queueStatus := "failed",
    meta := [("progress", .i 60), ("current_step", .s "Converting text to speech"),
             ("step_number", .i 3), ("total_steps", .i 4)],
    result := none }

theorem failed_job_reporting_witness :
    ((check envStatusW "job-9" (some jobC9)).status = "failed" ∧
     (check envStatusW "job-9" (some jobC9)).progress = some 0 ∧
     (check envStatusW "job-9" (some jobC9)).current_step = some "Job failed") ∧
    ∃ m : WsStatusMessage,
      send_current_status "test-bucket" "job-9" (some jobC9) = .statusMessage m ∧
      m.status = "failed" ∧ m.progress = 0 ∧ m.current_step = "Job failed" :=
  failed_job_reporting envStatusW "test-bucket" "job-9" jobC9 (by decide)

/-! ## Protocol claims -/

/-- C4: a JSON-RPC request whose method is not `initialize`, `ping` or
`notifications/initialized`, arriving while the session is
uninitialized, receives the structured not-initialized error response
(code `-32600`) with the state unchanged, and is never handed to an
endpoint handler — so no tool runs and nothing is enqueued. -/
theorem uninitialized_gate_rejects (st : McpState) (req : JsonRpcRequest)
    (h1 : st.initialized = false)
    (h2 : req.method ∉ (["initialize", "notifications/initialized", "ping"] : List String)) :
    process_mcp_message st req =
      (st, .response (create_error_response req.id McpError.INVALID_REQUEST
        "Protocol not initialized. Call \x27initialize\x27 first.")) := by
  simp only [List.mem_cons, List.not_mem_nil, or_false, not_or] at h2
  obtain ⟨hm1, hm2, hm3⟩ := h2
  simp only [process_mcp_message, route_request, if_neg hm1, if_neg hm2, if_neg hm3]
  rw [if_pos]
  simp [hm1, hm2, h1]

theorem uninitialized_gate_rejects_witness :
    process_mcp_message {} { id := some (.inr 1), method := "tools/call" } =
      ({}, .response (create_error_response (some (.inr 1)) McpError.INVALID_REQUEST
        "Protocol not initialized. Call \x27initialize\x27 first.")) :=
  uninitialized_gate_rejects {} { id := some (.inr 1), method := "tools/call" }
    (by decide) (by decide)

/-- A syntactically complete `initialize` params object carrying an
unsupported protocol version. -/
def paramsBadVersion : RawInitParams :=
  { protocolVersion := some "2099-01-01", capabilities := some (),
    clientInfo := some { name := some "test-client", version := some "1.0" } }

def reqBadVersion : JsonRpcRequest :=
  { id := some (.inr 1), method := "initialize", params := some paramsBadVersion }

/-- C5 counterexample: an `initialize` carrying the unsupported version
`2099-01-01` is answered with the generic invalid-params error
(code `-32602`, message `Invalid initialize parameters: …`) — the
pydantic enum rejects the version before `handle_initialize` ever
reaches its dedicated invalid-protocol-version branch (code `-32000`,
the one that lists the supported versions), so the response is not the
"invalid protocol version" error the claim describes.  The session does
remain uninitialized. -/
theorem unsupported_version_gets_invalid_params :
    ( handle_initialize {} reqBadVersion).2.error =
      some { code := McpError.INVALID_PARAMS,
             message := "Invalid initialize parameters: protocolVersion input should be a member of McpProtocolVersion" } ∧
    McpError.INVALID_PARAMS ≠ McpError.INVALID_PROTOCOL_VERSION ∧
    ( handle_initialize {} reqBadVersion).1.initialized = false := by
  refine ⟨by decide, by decide, by decide⟩

/-- A successful pydantic parse pins the version to an enum member and
to the raw input. -/
theorem parseInitializeRequest_ok_mem {p : RawInitParams} {ir : InitializeRequest}
    (h : parseInitializeRequest p = .ok ir) :
    ir.protocolVersion ∈ mcpProtocolVersionValues ∧
    p.protocolVersion = some ir.protocolVersion := by
  obtain ⟨pv, pc, pci⟩ := p
  rcases pv with _ | v
  · simp [parseInitializeRequest] at h
  · by_cases hmem : v ∈ mcpProtocolVersionValues
    · rcases pc with _ | c
      · simp [parseInitializeRequest, not_not_intro hmem] at h
      · rcases pci with _ | ci
        · simp [parseInitializeRequest, not_not_intro hmem] at h
        · obtain ⟨cin, civ⟩ := ci
          rcases cin with _ | n <;> rcases civ with _ | ver <;>
            simp [parseInitializeRequest, not_not_intro hmem] at h
          subst h
          exact ⟨hmem, rfl⟩
    · simp [parseInitializeRequest, hmem] at h

/-- C5 (amended): a supported `protocolVersion` is echoed back exactly
and flips the session to initialized; an unsupported version is
rejected — leaving the session state unchanged — but with the generic
invalid-params error (`-32602`), the dedicated
invalid-protocol-version branch being unreachable behind the enum
validation. -/
theorem version_negotiation (st : McpState) (req : JsonRpcRequest) (p : RawInitParams)
    (hp : req.params = some p) :
    (∀ v, p.protocolVersion = some v → v ∉ supported_versions →
      ( handle_initialize st req).1 = st ∧
      ∃ msg, ( handle_initialize st req).2 =
        create_error_response req.id McpError.INVALID_PARAMS msg) ∧
    (∀ ir, parseInitializeRequest p = .ok ir →
      ir.protocolVersion ∈ supported_versions ∧
      ( handle_initialize st req).1.initialized = true ∧
      ( handle_initialize st req).2 =
        create_success_response req.id (.initResult ir.protocolVersion)) := by
  constructor
  · intro v hv hns
    have hvals : v ∉ mcpProtocolVersionValues := by
      simpa [mcpProtocolVersionValues, supported_versions] using hns
    have hparse : parseInitializeRequest p =
        .error "protocolVersion input should be a member of McpProtocolVersion" := by
      simp only [parseInitializeRequest, hv]
      rw [if_pos hvals]
    simp only [ handle_initialize, hp, hparse]
    exact ⟨by simp, _, rfl⟩
  · intro ir hir
    obtain ⟨hin, _⟩ := parseInitializeRequest_ok_mem hir
    have hsup : ir.protocolVersion ∈ supported_versions := by
      simpa [mcpProtocolVersionValues, supported_versions] using hin
    refine ⟨hsup, ?_, ?_⟩ <;>
      simp [ handle_initialize, hp, hir, if_neg (not_not_intro hsup)]

/-- A syntactically complete `initialize` params object carrying a
supported protocol version. -/
def paramsGoodVersion : RawInitParams :=
  { protocolVersion := some "2025-03-26", capabilities := some (),
    clientInfo := some { name := some "test-client", version := some "1.0" } }

def reqGoodVersion : JsonRpcRequest :=
  { id := some (.inr 2), method := "initialize", params := some paramsGoodVersion }

theorem version_negotiation_witness :
    ((( handle_initialize {} reqBadVersion).1 = ({} : McpState)) ∧
      ∃ msg, ( handle_initialize {} reqBadVersion).2 =
        create_error_response reqBadVersion.id McpError.INVALID_PARAMS msg) ∧
    (( handle_initialize {} reqGoodVersion).1.initialized = true ∧
      ( handle_initialize {} reqGoodVersion).2 =
        create_success_response reqGoodVersion.id (.initResult "2025-03-26")) :=
  ⟨(version_negotiation {} reqBadVersion paramsBadVersion rfl).1 "2099-01-01" rfl (by decide),
   by
     have h := (version_negotiation {} reqGoodVersion paramsGoodVersion rfl).2
       { protocolVersion := "2025-03-26", clientName := "test-client", clientVersion := "1.0" }
       (by rfl)
     exact ⟨h.2.1, h.2.2⟩⟩

/-! ## Video-parameter validation claims -/

def envOkCreds : CreateTaskEnv := { validate_credentials := (true, none) }

def paramsDurZero : VideoGenerationParameters := { durationSeconds := some 0 }

def reqDurZero : MCPRequest :=
  { mode := "video", prompt := "a cat on a skateboard", parameters := some paramsDurZero }

/-- C2 counterexample: `durationSeconds = 0` lies outside the range
1–60, yet `validate_video_parameters` accepts it — the guard
`if parameters.durationSeconds:` treats the falsy `0` as absent — and
`create_task` enqueues the job instead of rejecting it with a
400-class error. -/
theorem duration_zero_is_enqueued :
    ¬ (1 ≤ (0 : ℤ) ∧ (0 : ℤ) ≤ 60) ∧
    validate_video_parameters reqDurZero.parameters = (true, none) ∧
    create_task envOkCreds "job-z" reqDurZero =
      .queued "video"
        { job_id := "job-z", status := "queued", progress := some 0,
          current_step := some "Job queued, waiting to start",
          total_steps := some 3, step_number := some 0 } :=
  ⟨by decide, by decide, by decide⟩

/-- C2 (amended): a video submission whose provided parameters are
invalid — a nonzero `durationSeconds` outside 1–60, a nonzero
`sampleCount` outside 1–4, a non-empty unsupported aspect ratio, or a
non-empty unknown model — is rejected synchronously with a 400-class
error and nothing is enqueued.  The falsy values `0` and `""` skip
their checks (the guards test Python truthiness) and are accepted. -/
theorem invalid_video_params_rejected (env : CreateTaskEnv) (job_id : String)
    (req : MCPRequest) (p : VideoGenerationParameters)
    (hm : req.mode = "video") (hp : req.parameters = some p)
    (hbad :
      (∃ m, p.model = some m ∧ m ≠ "" ∧ m ∉ SUPPORTED_VIDEO_MODELS) ∨
      (∃ d, p.durationSeconds = some d ∧ d ≠ 0 ∧ (d < 1 ∨ 60 < d)) ∨
      (∃ r, p.aspect_ratio = some r ∧ r ≠ "" ∧ r ∉ valid_ratios) ∨
      (∃ c, p.sampleCount = some c ∧ c ≠ 0 ∧ (c < 1 ∨ 4 < c))) :
    (validate_video_parameters req.parameters).1 = false ∧
    ∃ detail, create_task env job_id req = .httpError 400 detail := by
  have hval : (validate_video_parameters (some p)).1 = false := by
    simp only [validate_video_parameters]
    split_ifs with h1 h2 h3 h4
    · rfl
    · rfl
    · rfl
    · rfl
    · exfalso
      rcases hbad with ⟨m, hf, hne, hmem⟩ | ⟨d, hf, hne, hrange⟩ |
        ⟨r, hf, hne, hmem⟩ | ⟨c, hf, hne, hrange⟩
      · exact h1 ⟨by simp [pyTruthyStr, hf, hne], by simp [hf, hmem]⟩
      · refine h2 ⟨by simp [pyTruthyInt, hf, hne], ?_⟩
        simp only [hf, Option.getD_some]
        omega
      · exact h3 ⟨by simp [pyTruthyStr, hf, hne], by simp [hf, hmem]⟩
      · refine h4 ⟨by simp [pyTruthyInt, hf, hne], ?_⟩
        simp only [hf, Option.getD_some]
        omega
  have hval' : (validate_video_parameters req.parameters).1 = false := by
    rw [hp]
    exact hval
  refine ⟨hval', ?_⟩
  unfold create_task
  by_cases hc1 : env.validate_credentials.1 = false
  · rw [if_pos hc1]
    exact ⟨_, rfl⟩
  · rw [if_neg hc1, if_pos ⟨hm, hval'⟩]
    exact ⟨_, rfl⟩

def params90 : VideoGenerationParameters := { durationSeconds := some 90 }

def req90 : MCPRequest :=
  { mode := "video", prompt := "a cat on a skateboard", parameters := some params90 }

/-- Witness for C2 (amended): the spec's literal scenario,
`durationSeconds = 90`, rejected before any job id is created. -/
theorem invalid_video_params_rejected_witness :
    (validate_video_parameters req90.parameters).1 = false ∧
    ∃ detail, create_task envOkCreds "job-90" req90 = .httpError 400 detail :=
  invalid_video_params_rejected envOkCreds "job-90" req90 params90 rfl rfl
    (.inr (.inl ⟨90, rfl, by decide, by decide⟩))

/-! ## Pipeline claims -/

def isErrorNotif : Notification → Bool
  | .error _ _ => true
  | _ => false

/-- The C1 scenario: submission succeeds and the single immediate
status check reports `done = true` together with a vendor error. -/
def envC1 : GenVideoEnv :=
  { bucket := "test-bucket",
    initAuth := .ok (),
    submit := .ok (some "projects/p/operations/op-123"),
    immediate_fetch := .ok
      { done := true,
        error := some { code := some 8, message := some "Quota exceeded" },
        response := none },
    make_blob_public_safe := fun _ => .error "unreached",
    uploadMetadata := .ok () }

/-- C1: with the vendor reporting `done = true` plus an `error` on the
immediate post-submission check, `gen_video` does **not** re-raise —
the deliberate `raise ValueError` is caught by the enclosing blanket
`except` of the immediate-check block — so the pipeline returns the
`{status: "submitted"}` record (the queue records the job as
finished), publishes no error notification, and even marks the job
`status = 'running'` in its metadata. -/
theorem immediate_vendor_failure_swallowed :
    (gen_video envC1 "job-1" []).result =
      .ok (.submitted "projects/p/operations/op-123"
        "Video generation started successfully") ∧
    (gen_video envC1 "job-1" []).log.all (fun n => !isErrorNotif n) = true ∧
    metaGetS? (gen_video envC1 "job-1" []).meta "status" = some "running" :=
  ⟨rfl, rfl, rfl⟩

/-! ## Metadata scrubbing (C6) -/

theorem metaGet_metaDel_self (m : Meta) (k : String) :
    metaGet (metaDel m k) k = none := by
  unfold metaGet metaDel
  rw [List.find?_eq_none.mpr]
  intro kv hkv
  have h := List.of_mem_filter hkv
  simp only [decide_not, Bool.not_eq_true', decide_eq_false_iff_not] at h
  simpa using h

theorem metaGet_metaDel_of_none (m : Meta) (k k' : String)
    (h : metaGet m k = none) : metaGet (metaDel m k') k = none := by
  unfold metaGet at *
  rcases hf : m.find? (fun kv => kv.1 = k) with _ | kv
  · unfold metaDel
    rw [List.find?_eq_none.mpr]
    intro kv hkv
    exact List.find?_eq_none.mp hf kv (List.mem_of_mem_filter hkv)
  · rw [hf] at h
    cases h

theorem metaGet_foldl_del_of_none (ks : List String) (m : Meta) (k : String)
    (h : metaGet m k = none) :
    metaGet (ks.foldl (fun acc k' => metaDel acc k') m) k = none := by
  induction ks generalizing m with
  | nil => exact h
  | cons a ks ih =>
    exact ih (metaDel m a) (metaGet_metaDel_of_none m k a h)

theorem metaGet_foldl_del_of_mem (ks : List String) (m : Meta) (k : String)
    (hk : k ∈ ks) :
    metaGet (ks.foldl (fun acc k' => metaDel acc k') m) k = none := by
  induction ks generalizing m with
  | nil => cases hk
  | cons a ks ih =>
    rcases List.mem_cons.mp hk with h | h
    · subst h
      exact metaGet_foldl_del_of_none ks (metaDel m k) k (metaGet_metaDel_self m k)
    · exact ih (metaDel m a) h

/-- Scrubbing removes every sensitive key. -/
theorem metaGet_clear_sensitive (m : Meta) (k : String) (hk : k ∈ sensitive_keys) :
    metaGet (clear_sensitive_data m) k = none :=
  metaGet_foldl_del_of_mem sensitive_keys m k hk

/-- Every exit of `gen_video` persists scrubbed metadata. -/
theorem gen_video_meta_cleared (env : GenVideoEnv) (job_id : String) (m0 : Meta) :
    ∃ mm, (gen_video env job_id m0).meta = clear_sensitive_data mm := by
  cases h1 : env.initAuth with
  | error e => exact ⟨vMeta1 m0, by simp only [gen_video, h1]⟩
  | ok u =>
    cases h2 : env.submit with
    | error e => exact ⟨vMeta2 m0, by simp only [gen_video, h1, h2]⟩
    | ok opName? =>
      by_cases hop : pyTruthyStr opName? = false
      · exact ⟨vMeta2 m0, by simp only [gen_video, h1, h2, if_pos hop]⟩
      · cases h3 : immediateVideoUrl env with
        | none =>
          exact ⟨vMeta5 m0 (opName?.getD ""), by
            simp only [gen_video, h1, h2, if_neg hop, h3]⟩
        | some u2 =>
          cases h4 : env.uploadMetadata with
          | error e => exact ⟨vMeta3 m0, by simp only [gen_video, h1, h2, if_neg hop, h3, h4]⟩
          | ok u3 => exact ⟨vMeta4 m0, by simp only [gen_video, h1, h2, if_neg hop, h3, h4]⟩

/-- Every exit of `gen_audio` persists scrubbed metadata. -/
theorem gen_audio_meta_cleared (env : GenAudioEnv) (job_id : String)
    (credentials : Option CredsDict) (generate_thumbnail : Bool)
    (provider audio_format : String) (max_duration_seconds : ℤ) (m0 : Meta) :
    ∃ mm, (gen_audio env job_id credentials generate_thumbnail provider
      audio_format max_duration_seconds m0).meta = clear_sensitive_data mm := by
  cases h1 : env.storageInit with
  | error e => exact ⟨m0, by simp only [gen_audio, h1]⟩
  | ok u =>
    cases h2 : make_script env
        (orFalsy (credentials.getD {}).gemini_api_key env.gemini_key_env)
        provider max_duration_seconds with
    | error e =>
      exact ⟨aMeta1 generate_thumbnail m0, by simp only [gen_audio, h1, h2]⟩
    | ok s =>
      cases h3 : ttsTryModels env.ttsGenerate models_to_try none with
      | error e =>
        exact ⟨aMeta3 generate_thumbnail m0, by simp only [gen_audio, h1, h2, h3]⟩
      | ok u2 =>
        cases h4 : env.uploadMp3 with
        | error e =>
          exact ⟨aMeta5 generate_thumbnail m0, by simp only [gen_audio, h1, h2, h3, h4]⟩
        | ok u3 =>
          cases h5 : env.publicMp3 with
          | error e =>
            exact ⟨aMeta5 generate_thumbnail m0, by
              simp only [gen_audio, h1, h2, h3, h4, h5]⟩
          | ok display_audio_url =>
            cases h6 : aDownloadUrl env audio_format display_audio_url with
            | error e =>
              exact ⟨aMeta5 generate_thumbnail m0, by
                simp only [gen_audio, h1, h2, h3, h4, h5, h6]⟩
            | ok dl =>
              exact ⟨aMeta6 generate_thumbnail m0, by
                simp only [gen_audio, h1, h2, h3, h4, h5, h6]⟩

/-- C6: whatever the environment does — success, vendor failure, storage
failure, any exception path — a job that reaches a terminal state in
either pipeline leaves metadata containing none of the credential keys
`gemini_api_key`, `openai_api_key`, `google_cloud_credentials`,
`elevenlabs_api_key`, `credentials`, even if the initial metadata
carried them. -/
theorem terminal_metadata_scrubbed
    (envV : GenVideoEnv) (jidV : String) (m0V : Meta)
    (envA : GenAudioEnv) (jidA : String) (creds : Option CredsDict)
    (gt : Bool) (prov fmt : String) (mds : ℤ) (m0A : Meta)
    (k : String) (hk : k ∈ sensitive_keys) :
    metaGet (gen_video envV jidV m0V).meta k = none ∧
    metaGet (gen_audio envA jidA creds gt prov fmt mds m0A).meta k = none := by
  obtain ⟨mV, hV⟩ := gen_video_meta_cleared envV jidV m0V
  obtain ⟨mA, hA⟩ := gen_audio_meta_cleared envA jidA creds gt prov fmt mds m0A
  rw [hV, hA]
  exact ⟨metaGet_clear_sensitive mV k hk, metaGet_clear_sensitive mA k hk⟩

def envC6V : GenVideoEnv :=
  { bucket := "test-bucket",
    initAuth := .error "could not refresh credentials",
    submit := .ok none,
    immediate_fetch := .error "unreached",
    make_blob_public_safe := fun _ => .error "unreached",
    uploadMetadata := .ok () }

def envC6A : GenAudioEnv :=
  { openai_key_env := some "sk-internal-0123456789abcdef",
    gemini_key_env := none,
    storageInit := .ok (),
    openaiSanitizedScript := .ok "A short note about rain.".toList,
    geminiSanitizedScript := .error "unreached",
    voicesFetch := .ok ["pNInz6obpgDQGcFmaJgB"],
    ttsGenerate := fun _ => .ok (),
    convert := .ok (),
    thumbnailGen := .ok none,
    uploadMp3 := .ok (),
    publicMp3 := .ok "https://storage.googleapis.com/test-bucket/audio/a.mp3",
    uploadConverted := .ok (),
    publicConverted := .ok "https://storage.googleapis.com/test-bucket/audio/a_converted.m4a",
    audioDuration := .error "duration probe failed" }

theorem terminal_metadata_scrubbed_witness :
    metaGet (gen_video envC6V "job-v" [("gemini_api_key", .s "AIza-secret")]).meta
      "gemini_api_key" = none ∧
    metaGet (gen_audio envC6A "job-a" (some { gemini_api_key := some "AIza-secret" })
      false "openai" "m4a" 60 [("gemini_api_key", .s "AIza-secret")]).meta
      "gemini_api_key" = none :=
  terminal_metadata_scrubbed envC6V "job-v" [("gemini_api_key", .s "AIza-secret")]
    envC6A "job-a" (some { gemini_api_key := some "AIza-secret" })
    false "openai" "m4a" 60 [("gemini_api_key", .s "AIza-secret")]
    "gemini_api_key" (by decide)

/-! ## Word-count and sentence lemmas for the truncation claims -/

theorem countWordsAux_append (a b : List Char) (p : Bool) :
    countWordsAux p (a ++ b) = countWordsAux p a + countWordsAux (endState p a) b := by
  induction a generalizing p with
  | nil => simp [countWordsAux, endState]
  | cons c cs ih =>
    simp only [List.cons_append, countWordsAux, endState, List.append_eq]
    rw [ih]
    omega

theorem countWordsAux_space_cons (b : List Char) (p : Bool) :
    countWordsAux p (' ' :: b) = countWordsAux true b := by
  simp [countWordsAux, isSpace]

theorem wordCount_append_space (a b : List Char) :
    wordCount (a ++ ' ' :: b) = wordCount a + wordCount b := by
  unfold wordCount
  rw [countWordsAux_append, countWordsAux_space_cons]

def wordSum (ps : List (List Char)) : ℕ := (ps.map wordCount).sum

theorem wordCount_joinSpace (ps : List (List Char)) :
    wordCount (joinSpace ps) = wordSum ps := by
  induction ps with
  | nil => rfl
  | cons p rest ih =>
    cases rest with
    | nil => simp [joinSpace, wordSum]
    | cons q qs =>
      rw [show joinSpace (p :: q :: qs) = p ++ ' ' :: joinSpace (q :: qs) from rfl,
        wordCount_append_space, ih]
      simp [wordSum]

theorem truncLoop_subset (maxW : ℤ) (ss : List (List Char)) (w : ℕ) (p : List Char)
    (hp : p ∈ truncLoop maxW ss w) : p ∈ ss := by
  induction ss generalizing w with
  | nil => simp [truncLoop] at hp
  | cons s rest ih =>
    unfold truncLoop at hp
    split_ifs at hp
    · simp at hp
    · rcases List.mem_cons.mp hp with h | h
      · exact List.mem_cons.mpr (Or.inl h)
      · exact List.mem_cons.mpr (Or.inr (ih _ h))

theorem truncLoop_wordSum (maxW : ℤ) (ss : List (List Char)) (w : ℕ)
    (hw : (w : ℤ) ≤ maxW) :
    (w : ℤ) + wordSum (truncLoop maxW ss w) ≤ maxW := by
  induction ss generalizing w with
  | nil => simpa [truncLoop, wordSum] using hw
  | cons s rest ih =>
    unfold truncLoop
    split_ifs with h
    · simpa [wordSum] using hw
    · push_neg at h
      have := ih (w + wordCount s) h
      simp only [wordSum, List.map_cons, List.sum_cons] at *
      push_cast at *
      omega

/-- The property "the last character, if any, is not whitespace". -/
def noTrailSpace (l : List Char) : Prop :=
  ∀ c, l.getLast? = some c → isSpace c = false

theorem head?_dropWhile_not (p : Char → Bool) (l : List Char) (c : Char)
    (h : (l.dropWhile p).head? = some c) : p c = false := by
  induction l with
  | nil => simp [List.dropWhile] at h
  | cons x xs ih =>
    rw [List.dropWhile_cons] at h
    by_cases hx : p x = true
    · rw [if_pos hx] at h
      exact ih h
    · rw [if_neg hx] at h
      simp only [List.head?_cons, Option.some.injEq] at h
      subst h
      simpa using hx

theorem noTrailSpace_rstrip (l : List Char) : noTrailSpace (rstrip l) := by
  intro c hc
  unfold rstrip at hc
  rw [List.getLast?_reverse] at hc
  exact head?_dropWhile_not isSpace l.reverse c hc

theorem noTrailSpace_strip (l : List Char) : noTrailSpace (strip l) :=
  noTrailSpace_rstrip (lstrip l)

theorem rstrip_eq_self (l : List Char) (h : noTrailSpace l) : rstrip l = l := by
  unfold rstrip
  rcases hr : l.reverse with _ | ⟨x, xs⟩
  · simp only [List.dropWhile_nil]
    rw [← hr, List.reverse_reverse]
  · have hx : l.getLast? = some x := by
      rw [← List.head?_reverse, hr]
      rfl
    rw [List.dropWhile_cons, if_neg (by simp [h x hx])]
    rw [← hr, List.reverse_reverse]

theorem endState_eq_getLast (l : List Char) (p : Bool) (c : Char)
    (h : l.getLast? = some c) : endState p l = isSpace c := by
  induction l generalizing p with
  | nil => simp at h
  | cons x xs ih =>
    cases xs with
    | nil =>
      simp only [List.getLast?_singleton] at h
      injection h with h2
      subst h2
      rfl
    | cons y ys =>
      rw [List.getLast?_cons_cons] at h
      show endState (isSpace x) (y :: ys) = isSpace c
      exact ih (isSpace x) h

theorem wordCount_append_dot (t : List Char) (ht : t ≠ []) (hn : noTrailSpace t) :
    wordCount (t ++ ['.']) = wordCount t := by
  obtain ⟨c, hc⟩ := Option.isSome_iff_exists.mp (List.getLast?_isSome.mpr ht)
  unfold wordCount
  rw [countWordsAux_append, endState_eq_getLast t true c hc, hn c hc]
  simp [countWordsAux]

theorem isSentEnd_not_space (c : Char) (h : isSentEnd c = true) : isSpace c = false := by
  unfold isSentEnd at h
  rcases (by simpa using h : c = '.' ∨ c = '!' ∨ c = '?') with h1 | h1 | h1 <;>
    subst h1 <;> decide

theorem getLast?_cons_ne_nil (c : Char) (rest : List Char) (h : rest ≠ []) :
    (c :: rest).getLast? = rest.getLast? := by
  cases rest with
  | nil => exact absurd rfl h
  | cons y ys => exact List.getLast?_cons_cons

/-- Core invariant of the sentence splitter: on input with no trailing
whitespace (and a compatible accumulator), every produced piece is
nonempty and ends in a non-whitespace character. -/
theorem sentenceSplitAux_pieces :
    ∀ (s : List Char) (skipping : Bool) (acc : List Char),
    (s = [] → acc ≠ [] ∧ ∀ c, acc.head? = some c → isSpace c = false) →
    (∀ c, s.getLast? = some c → isSpace c = false) →
    ∀ p ∈ sentenceSplitAux skipping acc s, p ≠ [] ∧ noTrailSpace p := by
  intro s
  induction s with
  | nil =>
    intro skipping acc h1 h2 p hp
    simp only [sentenceSplitAux, List.mem_singleton] at hp
    subst hp
    obtain ⟨hne, hhead⟩ := h1 rfl
    refine ⟨by simpa using hne, ?_⟩
    intro c hc
    rw [List.getLast?_reverse] at hc
    exact hhead c hc
  | cons c rest ih =>
    intro skipping acc h1 h2 p hp
    have hrest2 : ∀ c', rest.getLast? = some c' → isSpace c' = false := by
      intro c' hc'
      apply h2 c'
      cases rest with
      | nil => simp at hc'
      | cons y ys => rw [List.getLast?_cons_cons]; exact hc'
    simp only [sentenceSplitAux] at hp
    split_ifs at hp with hb1 hb2
    · refine ih true acc ?_ hrest2 p hp
      intro hrest
      subst hrest
      have := h2 c (by rfl)
      simp [hb1.2] at this
    · rcases List.mem_cons.mp hp with hpe | hpr
      · subst hpe
        rcases hacc : acc.head? with _ | p0
        · exfalso
          have : prevIsSentEnd acc = false := by
            unfold prevIsSentEnd
            rw [hacc]
          rw [this] at hb2
          simp at hb2
        · have hse : isSentEnd p0 = true := by
            have := hb2.2
            unfold prevIsSentEnd at this
            rwa [hacc] at this
          have haccne : acc ≠ [] := by
            intro h
            subst h
            simp at hacc
          refine ⟨by simpa using haccne, ?_⟩
          intro c' hc'
          rw [List.getLast?_reverse, hacc] at hc'
          injection hc' with h3
          subst h3
          exact isSentEnd_not_space p0 hse
      · refine ih true [] ?_ hrest2 p hpr
        intro hrest
        subst hrest
        have := h2 c (by rfl)
        simp [hb2.1] at this
    · refine ih false (c :: acc) ?_ hrest2 p hp
      intro hrest
      subst hrest
      refine ⟨by simp, ?_⟩
      intro c' hc'
      simp only [List.head?_cons, Option.some.injEq] at hc'
      subst hc'
      exact h2 c (by rfl)

theorem sentenceSplit_pieces (s : List Char) (hs : s ≠ []) (hn : noTrailSpace s) :
    ∀ p ∈ sentenceSplit s, p ≠ [] ∧ noTrailSpace p :=
  sentenceSplitAux_pieces s false [] (fun h => absurd h hs) hn

/-- Joining nonempty, non-trailing-space pieces with single spaces
yields a nonempty string with no trailing space. -/
theorem joinSpace_good (ps : List (List Char)) (hne : ps ≠ [])
    (hall : ∀ p ∈ ps, p ≠ [] ∧ noTrailSpace p) :
    joinSpace ps ≠ [] ∧ noTrailSpace (joinSpace ps) := by
  induction ps with
  | nil => exact absurd rfl hne
  | cons p rest ih =>
    cases rest with
    | nil =>
      obtain ⟨h1, h2⟩ := hall p (by simp)
      exact ⟨h1, h2⟩
    | cons q qs =>
      obtain ⟨hj1, hj2⟩ := ih (by simp)
        (fun r hr => hall r (List.mem_cons.mpr (Or.inr hr)))
      rw [show joinSpace (p :: q :: qs) = p ++ ' ' :: joinSpace (q :: qs) from rfl]
      constructor
      · simp
      · intro c hc
        rw [List.getLast?_append_of_ne_nil p (by simp), getLast?_cons_ne_nil ' ' _ hj1] at hc
        exact hj2 c hc


theorem maxWordsFor_nonneg (d : ℤ) : 0 ≤ maxWordsFor d := by
  unfold maxWordsFor floatToInt
  exact Int.floor_nonneg.mpr (fl_nonneg _)

/-- The two guarantees of `truncate_script_to_duration`: the result
stays within the word budget, and a nonempty result ends in terminal
punctuation. -/
theorem truncate_props (text : List Char) (d : ℤ) (hd : 0 ≤ maxWordsFor d) :
    (wordCount (truncate_script_to_duration text d) : ℤ) ≤ maxWordsFor d ∧
    (truncate_script_to_duration text d ≠ [] →
      endsWithPunct (truncate_script_to_duration text d) = true) := by
  have hsum0 : (0 : ℤ) + wordSum (truncLoop (maxWordsFor d) (sentenceSplit (strip text)) 0) ≤
      maxWordsFor d :=
    truncLoop_wordSum (maxWordsFor d) _ 0 (by simpa using hd)
  have htw : (wordCount (joinSpace (truncLoop (maxWordsFor d) (sentenceSplit (strip text)) 0)) : ℤ) ≤
      maxWordsFor d := by
    rw [wordCount_joinSpace]
    omega
  by_cases hne : joinSpace (truncLoop (maxWordsFor d) (sentenceSplit (strip text)) 0) = []
  · simp only [truncate_script_to_duration]
    rw [if_neg (by simp [hne])]
    rw [hne]
    constructor
    · simpa using hd
    · intro h
      exact absurd rfl h
  · have hkept_ne : truncLoop (maxWordsFor d) (sentenceSplit (strip text)) 0 ≠ [] := by
      intro h0
      apply hne
      rw [h0]
      rfl
    have hstrip : strip text ≠ [] := by
      intro h0
      apply hne
      rw [h0]
      rw [show sentenceSplit ([] : List Char) = [[]] from rfl]
      unfold truncLoop
      split_ifs with h
      · rfl
      · rfl
    have hgood : ∀ p ∈ truncLoop (maxWordsFor d) (sentenceSplit (strip text)) 0,
        p ≠ [] ∧ noTrailSpace p := by
      intro p hp
      exact sentenceSplit_pieces (strip text) hstrip (noTrailSpace_strip text) p
        (truncLoop_subset _ _ _ p hp)
    obtain ⟨hjne, hjnt⟩ := joinSpace_good _ hkept_ne hgood
    have hrs : rstrip (joinSpace (truncLoop (maxWordsFor d) (sentenceSplit (strip text)) 0)) =
        joinSpace (truncLoop (maxWordsFor d) (sentenceSplit (strip text)) 0) :=
      rstrip_eq_self _ hjnt
    simp only [truncate_script_to_duration]
    by_cases hpunct : endsWithPunct
        (rstrip (joinSpace (truncLoop (maxWordsFor d) (sentenceSplit (strip text)) 0))) = false
    · rw [if_pos ⟨hjne, hpunct⟩, hrs]
      constructor
      · rw [wordCount_append_dot _ hjne hjnt]
        exact htw
      · intro _
        unfold endsWithPunct
        rw [List.getLast?_append_of_ne_nil _ (by simp)]
        rfl
    · rw [if_neg (fun hcon => hpunct hcon.2)]
      constructor
      · exact htw
      · intro _
        rw [← hrs]
        simpa using hpunct


/-! ## Numeric bounds for the duration logic

`fl` cannot be evaluated by the kernel (its scaling exponent uses
`Int.log`), so all concrete facts about estimates and word budgets are
derived from the relative-error bounds `fl_le` / `le_fl`. -/

/-- Two-rounding bounds for `estimate_script_duration`: the estimate of
a text with `w` words lies within a factor `(1 ± flEps)^2` of the exact
value `w / 150 * 60 = w * 2 / 5` seconds. -/
theorem estimate_bounds (text : List Char) (w : ℕ)
    (hw : wordCount (squeezeWs (strip text)) = w) (hpos : 0 < w) :
    ((w : ℚ) * 2 / 5) * (1 - flEps) ^ 2 ≤ estimate_script_duration text ∧
    estimate_script_duration text ≤ ((w : ℚ) * 2 / 5) * (1 + flEps) ^ 2 := by
  unfold estimate_script_duration
  rw [hw]
  have hq : (0 : ℚ) < (w : ℚ) / 150 := by positivity
  have h1l := le_fl hq
  have h1u := fl_le hq
  have hfp : (0 : ℚ) < fl ((w : ℚ) / 150) := fl_pos hq
  have hq2 : (0 : ℚ) < fl ((w : ℚ) / 150) * 60 := by positivity
  have h2l := le_fl hq2
  have h2u := fl_le hq2
  have hem : (0 : ℚ) < 1 - flEps := by rw [flEps_val]; norm_num
  have hep : (0 : ℚ) < 1 + flEps := by rw [flEps_val]; norm_num
  constructor
  · calc ((w : ℚ) * 2 / 5) * (1 - flEps) ^ 2
        = ((w : ℚ) / 150 * (1 - flEps)) * 60 * (1 - flEps) := by ring
      _ ≤ fl ((w : ℚ) / 150) * 60 * (1 - flEps) := by nlinarith [h1l]
      _ = fl ((w : ℚ) / 150) * 60 * (1 - flEps) := rfl
      _ ≤ fl (fl ((w : ℚ) / 150) * 60) := by nlinarith [h2l]
  · calc fl (fl ((w : ℚ) / 150) * 60)
        ≤ fl ((w : ℚ) / 150) * 60 * (1 + flEps) := h2u
      _ ≤ ((w : ℚ) / 150 * (1 + flEps)) * 60 * (1 + flEps) := by nlinarith [h1u]
      _ = ((w : ℚ) * 2 / 5) * (1 + flEps) ^ 2 := by ring

/-- The empty text estimates to exactly 0 seconds. -/
theorem estimate_nil : estimate_script_duration ([] : List Char) = 0 := by
  have hw : wordCount (squeezeWs (strip ([] : List Char))) = 0 := rfl
  unfold estimate_script_duration
  rw [hw]
  rw [show ((0 : ℕ) : ℚ) / 150 = 0 by norm_num, fl_zero, zero_mul, fl_zero]

/-- Upper bound on the word budget, via the float error bounds. -/
theorem maxWordsFor_lt (d n : ℤ) (hd : 0 < d)
    (h : ((d : ℚ) / 60) * 150 * (1 + flEps) ^ 2 < (n : ℚ)) :
    maxWordsFor d < n := by
  unfold maxWordsFor floatToInt
  rw [Int.floor_lt]
  have hq : (0 : ℚ) < (d : ℚ) / 60 := by positivity
  have h1 := fl_le hq
  have hfp : (0 : ℚ) < fl ((d : ℚ) / 60) := fl_pos hq
  have hq2 : (0 : ℚ) < fl ((d : ℚ) / 60) * 150 := by positivity
  have h2 := fl_le hq2
  have hep : (0 : ℚ) < 1 + flEps := by rw [flEps_val]; norm_num
  calc fl (fl ((d : ℚ) / 60) * 150)
      ≤ fl ((d : ℚ) / 60) * 150 * (1 + flEps) := h2
    _ ≤ ((d : ℚ) / 60 * (1 + flEps)) * 150 * (1 + flEps) := by nlinarith [h1]
    _ = ((d : ℚ) / 60) * 150 * (1 + flEps) ^ 2 := by ring
    _ < (n : ℚ) := h

/-- A 53-word single-sentence script: estimated at 21.2 s, above
2 × 10 + 1 = 21 s for a 10-second limit, yet below the 40-second
violation threshold `max(20, 40)`. -/
def scriptC3 : List Char := ("word word word word word word word word word word word word word word word word word word word word word word word word word word word word word word word word word word word word word word word word word word word word word word word word word word word word word." : String).toList

/-- A 160-word single-sentence script: estimated at 64 s, above both the
60-second violation threshold `max(60, 60)` for a 30-second limit and
2 × 30 + 1 = 61 s. -/
def scriptW : List Char := ("word word word word word word word word word word word word word word word word word word word word word word word word word word word word word word word word word word word word word word word word word word word word word word word word word word word word word word word word word word word word word word word word word word word word word word word word word word word word word word word word word word word word word word word word word word word word word word word word word word word word word word word word word word word word word word word word word word word word word word word word word word word word word word word word word word word word word word word word word word word word word word word word word word word word word word word word word word word word word word word word." : String).toList


set_option maxRecDepth 8000

/-- C3 counterexample: for a 10-second limit, the 53-word `scriptC3`
is estimated at 21.2 s — at least 2 × 10 + 1 = 21 s — yet the
enforcement step returns it unchanged, because the violation threshold
is `max(20, 40) = 40` s and 21.2 ≤ 40.  Truncation would have changed
the script (its single 53-word sentence exceeds the 25-word budget, so
`truncate_script_to_duration` returns the empty script), so the claimed
"2× + 1 second ⇒ truncated" behaviour does not hold. -/
theorem over_double_plus_one_not_truncated :
    ((2 * 10 + 1 : ℤ) : ℚ) ≤ estimate_script_duration scriptC3 ∧
    enforceDuration scriptC3 10 = scriptC3 ∧
    truncate_script_to_duration scriptC3 10 ≠ scriptC3 := by
  have hw : wordCount (squeezeWs (strip scriptC3)) = 53 := by decide
  have hb := estimate_bounds scriptC3 53 hw (by norm_num)
  have h21 : ((2 * 10 + 1 : ℤ) : ℚ) ≤ estimate_script_duration scriptC3 := by
    have h1 := hb.1
    rw [flEps_val] at h1
    have he : ((2 * 10 + 1 : ℤ) : ℚ) = 21 := by norm_num
    rw [he]
    norm_num at h1
    linarith
  have h40 : estimate_script_duration scriptC3 ≤ ((violation_threshold 10 : ℤ) : ℚ) := by
    have h2 := hb.2
    rw [flEps_val] at h2
    have hv : violation_threshold 10 = 40 := by decide
    rw [hv]
    norm_num at h2 ⊢
    linarith
  refine ⟨h21, ?_, ?_⟩
  · unfold enforceDuration
    rw [if_neg (not_lt.mpr h40)]
  · have hsplit : sentenceSplit (strip scriptC3) = [scriptC3] := by decide
    have hwc : wordCount scriptC3 = 53 := by decide
    have hm : maxWordsFor 10 < 53 :=
      maxWordsFor_lt 10 53 (by norm_num) (by rw [flEps_val]; norm_num)
    have hkept : truncLoop (maxWordsFor 10) (sentenceSplit (strip scriptC3)) 0 = [] := by
      rw [hsplit]
      unfold truncLoop
      rw [if_pos (by rw [hwc]; push_cast; omega)]
    simp only [truncate_script_to_duration]
    rw [hkept]
    rw [show joinSpace ([] : List (List Char)) = [] from rfl]
    rw [if_neg (by simp)]
    decide

/-- C3 amended: truncation applies exactly when the estimated duration
strictly exceeds the violation threshold `max(2d, d + 30)`; an estimate
of exactly 2d never triggers it, and the "2d + 1 seconds ⇒ truncated"
consequence holds only once d ≥ 30 (so that the threshold equals 2d);
when truncation fires, a nonempty result ends in terminal
punctuation. -/
theorem duration_enforcement (text : List Char) (d : ℤ) :
    (estimate_script_duration text ≤ ((violation_threshold d : ℤ) : ℚ) →
      enforceDuration text d = text) ∧
    (((violation_threshold d : ℤ) : ℚ) < estimate_script_duration text →
      enforceDuration text d = truncate_script_to_duration text d ∧
      (truncate_script_to_duration text d ≠ [] →
        endsWithPunct (truncate_script_to_duration text d) = true)) ∧
    (estimate_script_duration text = ((2 * d : ℤ) : ℚ) →
      enforceDuration text d = text) ∧
    (30 ≤ d → ((2 * d + 1 : ℤ) : ℚ) ≤ estimate_script_duration text →
      enforceDuration text d = truncate_script_to_duration text d) := by
  refine ⟨?_, ?_, ?_, ?_⟩
  · intro h
    unfold enforceDuration
    rw [if_neg (not_lt.mpr h)]
  · intro h
    refine ⟨?_, (truncate_props text d (maxWordsFor_nonneg d)).2⟩
    unfold enforceDuration
    rw [if_pos h]
  · intro h
    unfold enforceDuration
    rw [if_neg (by
      rw [not_lt, h]
      exact_mod_cast (show (2 * d : ℤ) ≤ violation_threshold d by
        unfold violation_threshold
        omega))]
  · intro hd h
    have hvt : violation_threshold d = d * 2 := by
      unfold violation_threshold
      omega
    unfold enforceDuration
    rw [if_pos (show ((violation_threshold d : ℤ) : ℚ) < estimate_script_duration text by
      rw [hvt]
      have h2 : ((d * 2 : ℤ) : ℚ) < ((2 * d + 1 : ℤ) : ℚ) := by
        exact_mod_cast (show (d * 2 : ℤ) < 2 * d + 1 by omega)
      linarith)]

/-- C3 amended, witnessed: the 160-word `scriptW` at a 30-second limit
is estimated at 64 s ≥ 61 = 2 × 30 + 1, so enforcement truncates it;
the empty script at a 0-second limit estimates to exactly 2 × 0 and is
left unchanged. -/
theorem duration_enforcement_witness :
    (30 : ℤ) ≤ 30 ∧
    ((2 * 30 + 1 : ℤ) : ℚ) ≤ estimate_script_duration scriptW ∧
    enforceDuration scriptW 30 = truncate_script_to_duration scriptW 30 ∧
    estimate_script_duration ([] : List Char) = ((2 * 0 : ℤ) : ℚ) ∧
    enforceDuration ([] : List Char) 0 = [] := by
  have hw : wordCount (squeezeWs (strip scriptW)) = 160 := by decide
  have hb := estimate_bounds scriptW 160 hw (by norm_num)
  have h61 : ((2 * 30 + 1 : ℤ) : ℚ) ≤ estimate_script_duration scriptW := by
    have h1 := hb.1
    rw [flEps_val] at h1
    have he : ((2 * 30 + 1 : ℤ) : ℚ) = 61 := by norm_num
    rw [he]
    norm_num at h1
    linarith
  have hz : estimate_script_duration ([] : List Char) = ((2 * 0 : ℤ) : ℚ) := by
    rw [estimate_nil]
    norm_num
  exact ⟨le_refl 30, h61, (duration_enforcement scriptW 30).2.2.2 (le_refl 30) h61, hz,
    (duration_enforcement ([] : List Char) 0).2.2.1 hz⟩

/-- C10: for every input text and positive duration limit,
`truncate_script_to_duration` returns a script of at most
`int((d / 60) * 150)` words, and a nonempty result ends in one of the
terminal punctuation characters. -/
theorem truncation_word_budget (text : List Char) (d : ℤ) (_hd : 1 ≤ d) :
    (wordCount (truncate_script_to_duration text d) : ℤ) ≤ maxWordsFor d ∧
    (truncate_script_to_duration text d ≠ [] →
      endsWithPunct (truncate_script_to_duration text d) = true) :=
  truncate_props text d (maxWordsFor_nonneg d)

/-- C10 witnessed at the 53-word script and a 60-second limit. -/
theorem truncation_word_budget_witness :
    (1 : ℤ) ≤ 60 ∧
    ((wordCount (truncate_script_to_duration scriptC3 60) : ℤ) ≤ maxWordsFor 60 ∧
     (truncate_script_to_duration scriptC3 60 ≠ [] →
       endsWithPunct (truncate_script_to_duration scriptC3 60) = true)) :=
  ⟨by norm_num, truncation_word_budget scriptC3 60 (by norm_num)⟩

end App
